import Mathlib

/-!
Verification development for the Google-Map-Scraper review engine
(`reviews/scrape_reviews.py`, `reviews/main_reviews.py`, `reviews/model.py`).

The Python code is shallowly embedded: pure helpers become Lean functions on
`String`/`List Char`; the stateful scroll/parse loop of `scrape_place_reviews`
becomes an explicit step function over a `LoopState`, driven by a list of
per-iteration environment observations (`Obs`) that stand for the DOM queries,
clicks and clock reads the loop performs.
-/

namespace GMR

/-! ## Python string primitives used by the helpers

`str.strip()` removes leading/trailing Python whitespace; `str.lower()`
lower-cases ASCII and Cyrillic letters (the alphabets appearing in the
source's patterns). -/

/-- Characters stripped by Python `str.strip()` (ASCII whitespace). -/
def isPyWs (c : Char) : Bool :=
  c = ' ' || c = '\t' || c = '\n' || c = '\r' || c.toNat = 11 || c.toNat = 12

/-- Python `str.strip()` on a character list. -/
def pyStripList (l : List Char) : List Char :=
  ((l.dropWhile isPyWs).reverse.dropWhile isPyWs).reverse

/-- Python `str.strip()`. -/
def pyStrip (s : String) : String := String.mk (pyStripList s.data)

/-- Python `str.lower()` restricted to the alphabets used by the date patterns
(ASCII A-Z and Cyrillic А-Я, Ё). -/
def pyLowerChar (c : Char) : Char :=
  if 'A' ≤ c ∧ c ≤ 'Z' then Char.ofNat (c.toNat + 32)
  else if 0x410 ≤ c.toNat ∧ c.toNat ≤ 0x42F then Char.ofNat (c.toNat + 0x20)
  else if c.toNat = 0x401 then Char.ofNat 0x451
  else c

/-- Python `sub in s` (substring containment) on character lists. -/
def listContainsSub (sub : List Char) : List Char → Bool
  | [] => sub.isEmpty
  | c :: rest => List.isPrefixOf sub (c :: rest) || listContainsSub sub rest

/-! ## Regex word matching

The date patterns in `_rel_to_iso` all have the form `\b(w1|w2|...)\b` where
each alternative is a literal word (character classes such as `минут[аы]?` are
expanded to their finitely many alternatives).  A Python `\b` is a boundary
between a word character (`\w`: letters, digits, underscore) and a non-word
character.  `containsWord` decides whether `re.search` finds any of the words
somewhere in the string with boundaries on both sides. -/

/-- Python regex `\w` for the alphabets appearing in the source's patterns
(ASCII alphanumerics, underscore, Cyrillic block). -/
def isWordChar (c : Char) : Bool :=
  c.isAlphanum || c = '_' || (0x400 ≤ c.toNat && c.toNat ≤ 0x4FF)

/-- A `\b` boundary holds before/after this (optional) neighbouring char. -/
def boundaryOk : Option Char → Bool
  | none => true
  | some c => !isWordChar c

/-- The word `w` occurs at the head of `cs` followed by a `\b` boundary. -/
def wordHere (w cs : List Char) : Bool :=
  List.isPrefixOf w cs && boundaryOk (cs.drop w.length).head?

/-- Scan `cs` for any of the words `ws`, `prevc` being the character just
before the current position (for the leading `\b`). -/
def containsWordFrom (ws : List (List Char)) : Option Char → List Char → Bool
  | prevc, [] => boundaryOk prevc && ws.any (fun w => wordHere w [])
  | prevc, c :: rest =>
      (boundaryOk prevc && ws.any (fun w => wordHere w (c :: rest)))
      || containsWordFrom ws (some c) rest

/-- `re.search(r"\b(w1|...|wn)\b", s)` succeeds. -/
def containsWord (cs : List Char) (ws : List String) : Bool :=
  containsWordFrom (ws.map String.data) none cs

/-- Value of the digit run found by `re.search(r"(\d+)", text)`. -/
def digitsToNat : List Char → Nat → Nat
  | [], acc => acc
  | c :: r, acc => digitsToNat r (acc * 10 + (c.toNat - 48))

/-- `re.search(r"(\d+)", text)`: the first maximal ASCII digit run, as a Nat. -/
def firstNumber : List Char → Option Nat
  | [] => none
  | c :: rest =>
      if c.isDigit then some (digitsToNat ((c :: rest).takeWhile Char.isDigit) 0)
      else firstNumber rest

/-- `num(text, default=1)` from `_rel_to_iso`. -/
def numOrDefault (cs : List Char) : Nat := (firstNumber cs).getD 1

/-! ## `_rel_to_iso` (scrape_reviews.py lines 77-91)

The Python function returns `(now - relativedelta(**{unit: n})).isoformat()`
or `None`.  For a fixed `now` that return value is injectively determined by
the pair (unit, magnitude), so the embedding returns `Option (TimeUnit × Nat)`:
`some (u, n)` stands for `now` moved backward by `n` units `u`, `none` for the
Python `None`. -/

inductive TimeUnit
  | minutes | hours | days | weeks | months | years
deriving DecidableEq

/-- Alternatives of `\b(min|mins|minute|minutes|мин|минут[аы]?|минута)\b`. -/
def minuteWords : List String :=
  ["min", "mins", "minute", "minutes", "мин", "минут", "минута", "минуты"]

/-- Alternatives of `\b(hour|hours|час|час[аов]?)\b` (the character class
expands to час/часа/часо/часв). -/
def hourWords : List String := ["hour", "hours", "час", "часа", "часо", "часв"]

/-- Alternatives of `\b(day|days|дн[ея]?)\b`. -/
def dayWords : List String := ["day", "days", "дн", "дне", "дня"]

/-- Alternatives of `\b(week|weeks|недел[яи]|недель)\b`. -/
def weekWords : List String := ["week", "weeks", "неделя", "недели", "недель"]

/-- Alternatives of `\b(month|months|мес[яц][ацев]?)\b` (both character
classes expanded). -/
def monthWords : List String :=
  ["month", "months", "меся", "месяа", "месяц", "месяе", "месяв",
   "месц", "месца", "месцц", "месце", "месцв"]

/-- Alternatives of `\b(year|years|год|года|лет)\b`. -/
def yearWords : List String := ["year", "years", "год", "года", "лет"]

/-- `_rel_to_iso(raw, now)`: `none` for falsy input and for unrecognized
strings; otherwise the backward offset from `now`.  The yesterday check is a
substring test and precedes all unit patterns; each unit branch uses
`num(s)` whose default magnitude is 1. -/
def _rel_to_iso (raw : Option String) : Option (TimeUnit × Nat) :=
  match raw with
  | none => none
  | some r =>
    if r = "" then none
    else
      let s := (pyStripList r.data).map pyLowerChar
      if listContainsSub "yesterday".data s || listContainsSub "вчера".data s then
        some (TimeUnit.days, 1)
      else if containsWord s minuteWords then some (TimeUnit.minutes, numOrDefault s)
      else if containsWord s hourWords then some (TimeUnit.hours, numOrDefault s)
      else if containsWord s dayWords then some (TimeUnit.days, numOrDefault s)
      else if containsWord s weekWords then some (TimeUnit.weeks, numOrDefault s)
      else if containsWord s monthWords then some (TimeUnit.months, numOrDefault s)
      else if containsWord s yearWords then some (TimeUnit.years, numOrDefault s)
      else none

/-! ## `_normalize_photo` (scrape_reviews.py lines 73-75) -/

/-- The character class `[^=/?]` of the photo regex. -/
def notPTok (c : Char) : Bool := !(c = '=' || c = '/' || c = '?')

/-- `re.search(r"/p/([^=/?]+)", u)`: earliest position where `/p/` is followed
by at least one `[^=/?]` character; returns group 1 (the maximal such run).
A position where `/p/` is present but immediately followed by a disallowed
character fails there and the search resumes at the next character, exactly
as the backtracking regex engine does. -/
def findPSeg : List Char → Option (List Char)
  | [] => none
  | c :: rest =>
      if c = '/' then
        match rest with
        | p :: q :: r2 =>
          if p = 'p' ∧ q = '/' then
            let tok := r2.takeWhile notPTok
            if tok.isEmpty then findPSeg rest else some tok
          else findPSeg rest
        | _ => findPSeg rest
      else findPSeg rest

/-- `_normalize_photo(u)`. -/
def _normalize_photo (u : String) : String :=
  match findPSeg u.data with
  | some tok => "https://lh3.googleusercontent.com/p/" ++ String.mk tok ++ "=s0"
  | none => u

/-! ## Category serialization (main_reviews.py)

`process_one` (lines 157-179) writes the category list as
`json.dumps(list(cats), ensure_ascii=False)`; `load_places`'s inner
`_parse_categories` (lines 62-80) parses it back, first via `json.loads`,
with a manual bracket/comma fallback.  `json.dumps` of a list of strings and
the array-of-strings fragment of `json.loads` are modelled exactly (escapes
included); inputs on which `json.loads` yields a non-list or raises both take
the fallback branch. -/

/-- Lowercase hex digit, as emitted by `json.dumps` in `\u00xx` escapes. -/
def hexDigitChar (n : Nat) : Char :=
  if n < 10 then Char.ofNat (48 + n) else Char.ofNat (87 + n)

/-- Per-character escaping of `json.dumps` (ensure_ascii=False): quote,
backslash and named control escapes, `\u00xx` for other controls, everything
else verbatim. -/
def escapeChar (c : Char) : List Char :=
  if c = '"' then ['\\', '"']
  else if c = '\\' then ['\\', '\\']
  else if c = '\n' then ['\\', 'n']
  else if c = '\r' then ['\\', 'r']
  else if c = '\t' then ['\\', 't']
  else if c.toNat = 8 then ['\\', 'b']
  else if c.toNat = 12 then ['\\', 'f']
  else if c.toNat < 32 then
    ['\\', 'u', '0', '0', hexDigitChar (c.toNat / 16), hexDigitChar (c.toNat % 16)]
  else [c]

/-- `json.dumps` of one string: quoted, characters escaped. -/
def encodeJsonString (s : String) : List Char :=
  '"' :: ((s.data.map escapeChar).flatten ++ ['"'])

/-- Join with the `", "` item separator `json.dumps` uses. -/
def sepJoin : List (List Char) → List Char
  | [] => []
  | [x] => x
  | x :: y :: t => x ++ ',' :: ' ' :: sepJoin (y :: t)

/-- `json.dumps(l, ensure_ascii=False)` for a list of strings, as written to
the Categories CSV column by `process_one`. -/
def jsonDumpsStrings (l : List String) : String :=
  String.mk ('[' :: (sepJoin (l.map encodeJsonString) ++ [']']))

/-- Value of a hex digit, as accepted by `json.loads` in `\uXXXX`. -/
def hexVal (c : Char) : Option Nat :=
  if '0' ≤ c ∧ c ≤ '9' then some (c.toNat - 48)
  else if 'a' ≤ c ∧ c ≤ 'f' then some (c.toNat - 87)
  else if 'A' ≤ c ∧ c ≤ 'F' then some (c.toNat - 55)
  else none

/-- The named escapes `json.loads` accepts after a backslash. -/
def simpleEscape (c : Char) : Option Char :=
  if c = '"' then some '"'
  else if c = '\\' then some '\\'
  else if c = '/' then some '/'
  else if c = 'b' then some (Char.ofNat 8)
  else if c = 'f' then some (Char.ofNat 12)
  else if c = 'n' then some '\n'
  else if c = 'r' then some '\r'
  else if c = 't' then some '\t'
  else none

/-- Body of a JSON string literal after the opening quote, as scanned by
`json.loads` (strict mode: raw control characters rejected; surrogate pairs,
which `dumps(ensure_ascii=False)` never emits, are not modelled).  Returns
the decoded characters and the input after the closing quote. -/
def parseStringBody : List Char → Option (List Char × List Char)
  | [] => none
  | c :: cs =>
    if c = '"' then some ([], cs)
    else if c = '\\' then
      match cs with
      | [] => none
      | e :: cs2 =>
        if e = 'u' then
          match cs2 with
          | h1 :: h2 :: h3 :: h4 :: cs3 =>
            match hexVal h1, hexVal h2, hexVal h3, hexVal h4 with
            | some a, some b, some c2, some d =>
              let n := ((a * 16 + b) * 16 + c2) * 16 + d
              if _h : n.isValidChar then
                match parseStringBody cs3 with
                | some (out, rest) => some (Char.ofNat n :: out, rest)
                | none => none
              else none
            | _, _, _, _ => none
          | _ => none
        else
          match simpleEscape e with
          | some ch =>
            match parseStringBody cs2 with
            | some (out, rest) => some (ch :: out, rest)
            | none => none
          | none => none
    else if c.toNat < 32 then none
    else
      match parseStringBody cs with
      | some (out, rest) => some (c :: out, rest)
      | none => none

/-- JSON whitespace skipped between tokens by `json.loads`. -/
def jsonWs (c : Char) : Bool := c = ' ' || c = '\t' || c = '\n' || c = '\r'

/-- Drop JSON whitespace. -/
def skipWs (l : List Char) : List Char := l.dropWhile jsonWs

/-- One or more comma-separated string literals followed by `]`, with fuel
bounding the number of items (any fuel above the item count is enough). -/
def parseItems : Nat → List Char → Option (List (List Char) × List Char)
  | 0, _ => none
  | fuel + 1, l =>
    match skipWs l with
    | '"' :: rest =>
      match parseStringBody rest with
      | some (s, rest2) =>
        match skipWs rest2 with
        | ',' :: rest3 =>
          match parseItems fuel rest3 with
          | some (items, r) => some (s :: items, r)
          | none => none
        | ']' :: rest3 => some ([s], rest3)
        | _ => none
      | none => none
    | _ => none

/-- `json.loads` restricted to the grammar that matters here: a JSON array of
string literals with nothing but whitespace around it.  `none` stands for
both a `json.loads` failure and a non-list result, either of which sends
`_parse_categories` to its manual fallback. -/
def parseJsonStringArray (s : String) : Option (List String) :=
  match skipWs s.data with
  | '[' :: rest =>
    match skipWs rest with
    | ']' :: rest2 => if (skipWs rest2).isEmpty then some [] else none
    | _ =>
      match parseItems (rest.length + 1) rest with
      | some (items, r) =>
          if (skipWs r).isEmpty then some (items.map String.mk) else none
      | none => none
  | _ => none

/-- Python `str.strip(chars)`: remove leading/trailing characters from the
given set. -/
def stripSet (cset : List Char) (l : List Char) : List Char :=
  ((l.dropWhile (fun c => c ∈ cset)).reverse.dropWhile (fun c => c ∈ cset)).reverse

/-- Python `s.split(",")` on a character list (empty pieces preserved). -/
def splitOnComma : List Char → List (List Char)
  | [] => [[]]
  | x :: rest =>
    let r := splitOnComma rest
    if x = ',' then [] :: r
    else
      match r with
      | h :: t => (x :: h) :: t
      | [] => [[x]]

/-- `_parse_categories(val)` from `load_places` (main_reviews.py 62-80):
falsy input gives `None`; a JSON list gives its stripped non-empty entries
(or `None` when none remain); otherwise a manual parse strips brackets,
splits on commas and strips whitespace and quotes from each piece. -/
def _parse_categories (val : Option String) : Option (List String) :=
  match val with
  | none => none
  | some v =>
    if v = "" then none
    else
      let s := pyStrip v
      match parseJsonStringArray s with
      | some arr =>
        let cleaned := (arr.map pyStrip).filter (fun x => x ≠ "")
        if cleaned.isEmpty then none else some cleaned
      | none =>
        let s2 := stripSet ['[', ']'] (pyStripList s.data)
        if s2.isEmpty then none
        else
          let parts := (splitOnComma s2).map
            (fun p => stripSet ['\''] (stripSet ['"'] (pyStripList p)))
          let kept := parts.filter (fun p => !p.isEmpty)
          if kept.isEmpty then none else some (kept.map String.mk)

/-! ## The scroll/parse loop of `scrape_place_reviews` (scrape_reviews.py 574-843)

The loop mutates local state (`rows`, `seen_ids`, `idle`, `prev_total`,
`rounds`, `prev_scroll_state`, `no_new_rounds`, `rebounce_done`,
`last_container_guid`, `last_progress_ts`) and interacts with the page.  The
embedding makes the state a record and feeds each iteration one `Obs` record
carrying everything the environment answers during that iteration: the DOM's
review ids, the outcome of the two possible rebounce clicks and locator
calls, per-card extraction success, the scroll metrics, the rebind locator
result, and the values of the `time.monotonic()` reads (grouped as one value
per check site).  A review row is represented by its `data-review-id` (the
only row component the claims depend on).  Three ghost counters
(`rebounceAttempts`, `rebounceSuccesses`, `sortApplications`) count calls of
`_click_all_reviews_if_present` from the two rebounce branches, completed
rebounces, and in-loop calls of `_set_sort_newest`; they alter no behavior.
Page-evaluation exceptions inside the metric reads (which would propagate out
of the generator function, not produce a return value) are not modelled: the
environment always answers. -/

/-- The configuration constants read from the environment at module load
(scrape_reviews.py 41-53) that the loop consults. -/
structure Config where
  SCROLL_IDLE_ROUNDS : Nat
  MAX_SCROLL_ROUNDS : Nat
  MAX_REVIEWS_PER_PLACE : Nat
  UI_LAG_TOLERANCE : Nat
  MIN_PLATEAU_COUNT : Nat
  PLACE_HARD_TIMEOUT_SEC : Nat
  NO_PROGRESS_MAX_SECS : Nat
deriving DecidableEq

/-- Default values of the configuration (the `os.getenv` fallbacks). -/
def defaultConfig : Config :=
  { SCROLL_IDLE_ROUNDS := 3, MAX_SCROLL_ROUNDS := 1800, MAX_REVIEWS_PER_PLACE := 0,
    UI_LAG_TOLERANCE := 3, MIN_PLATEAU_COUNT := 20, PLACE_HARD_TIMEOUT_SEC := 240,
    NO_PROGRESS_MAX_SECS := 45 }

/-- A container candidate returned by `_find_reviews_container`, as the loop
sees it: whether `_is_scrollable` holds, and the `__guid` the marker
evaluation yields (`none` when that evaluation raises). -/
structure ContainerCand where
  scrollable : Bool
  guid : Option Nat
deriving DecidableEq

/-- Environment answers for one loop iteration. -/
structure Obs where
  /-- `time.monotonic()` at the `while` condition (line 592). -/
  tCond : Nat
  /-- the `data-review-id` values in DOM order (`_list_visible_review_ids`
  deduplicates them through a JS `Set`). -/
  domIds : List String
  /-- result of `_click_all_reviews_if_present` at the first rebounce. -/
  rebounceClick : Bool
  /-- locator result after the first rebounce click. -/
  rebounceCand : Option ContainerCand
  /-- result of `_click_all_reviews_if_present` at the second rebounce. -/
  rebounceClick2 : Bool
  /-- locator result after the second rebounce click. -/
  rebounceCand2 : Option ContainerCand
  /-- whether the card parse of a given id reaches the `rows.append`. -/
  extractOk : String → Bool
  /-- `time.monotonic()` stored into `last_progress_ts` on an append. -/
  tProgress : Nat
  /-- `(scrollTop, scrollHeight)` read before the scroll step (754-755). -/
  scrollBefore : Int × Int
  /-- `(scrollTop, scrollHeight)` read after the scroll step (767-768). -/
  scrollAfter : Int × Int
  /-- locator result at the rebind check (line 785). -/
  rebindCand : Option ContainerCand
  /-- `time.monotonic()` at the bottom-of-loop checks (822, 825). -/
  tEnd : Nat

/-- The loop's mutable state (lines 395-397, 401-402, 575-585) plus the three
ghost counters. -/
structure LoopState where
  rows : List String
  seen_ids : List String
  idle : Nat
  prev_total : Nat
  rounds : Nat
  prev_scroll_state : Int × Int
  no_new_rounds : Nat
  rebounce_done : Bool
  last_container_guid : Option Nat
  start_ts : Nat
  last_progress_ts : Nat
  rebounceAttempts : Nat
  rebounceSuccesses : Nat
  sortApplications : Nat
deriving DecidableEq

/-- State at loop entry for a session started at `startTs` whose initial
container got identity marker `guid`. -/
def initState (startTs : Nat) (guid : Option Nat) : LoopState :=
  { rows := [], seen_ids := [], idle := 0, prev_total := 0, rounds := 0,
    prev_scroll_state := (-1, -1), no_new_rounds := 0, rebounce_done := false,
    last_container_guid := guid, start_ts := startTs, last_progress_ts := startTs,
    rebounceAttempts := 0, rebounceSuccesses := 0, sortApplications := 0 }

/-- Why the loop stopped.  The `...Limit/...Cond` reasons are failures of the
`while` condition (592-598); the `...Break` reasons are the `break`
statements at 801, 822 and 825; `outOfObs` means the supplied observation
list ran out while the loop would have continued. -/
inductive ExitReason
  | idleLimit | roundsLimit | targetCond | hardTimeoutCond | noProgressCond
  | targetBreak | hardTimeoutBreak | noProgressBreak | outOfObs
deriving DecidableEq

/-- Result of one loop body: continue with the new state, or break out. -/
inductive StepOut
  | cont (s : LoopState)
  | broke (s : LoopState) (r : ExitReason)
deriving DecidableEq

/-- `_list_visible_review_ids` (322-342): the DOM's ids deduplicated through
a JS `Set`, which keeps first occurrences in order. -/
def _list_visible_review_ids (domIds : List String) : List String :=
  domIds.foldl (fun acc rid => if rid ∈ acc then acc else acc ++ [rid]) []

/-- `_target_reached` (587-590).  `max(0, ui_total - UI_LAG_TOLERANCE)` is
truncated subtraction on `Nat`. -/
def _target_reached (cfg : Config) (ui_total : Option Nat) (seenCount : Nat) : Bool :=
  (cfg.MAX_REVIEWS_PER_PLACE != 0 && decide (cfg.MAX_REVIEWS_PER_PLACE ≤ seenCount))
  || (match ui_total with
      | some t => decide (t - cfg.UI_LAG_TOLERANCE ≤ seenCount)
      | none => false)

/-- `seen_ids.add(rid)`: the set gains the id if it is not already present
(insertion order kept, matching the growth of a Python set used only for
membership and size). -/
def insertId (seen : List String) (rid : String) : List String :=
  if rid ∈ seen then seen else seen ++ [rid]

/-- The `for rid in new_ids` card-extraction loop (627-750): on a successful
parse the row and the id are appended and `last_progress_ts` is stamped; a
failed parse (`except`) changes nothing; the loop breaks early when
`MAX_REVIEWS_PER_PLACE` is hit.  Returns (rows, seen_ids, last_progress_ts). -/
def extract_new_ids (cfg : Config) (ok : String → Bool) (tProgress : Nat) :
    List String → List String → List String → Nat → List String × List String × Nat
  | [], rows, seen, lp => (rows, seen, lp)
  | rid :: rest, rows, seen, lp =>
    if ok rid then
      let rows' := rows ++ [rid]
      let seen' := insertId seen rid
      if cfg.MAX_REVIEWS_PER_PLACE != 0 && decide (cfg.MAX_REVIEWS_PER_PLACE ≤ seen'.length) then
        (rows', seen', tProgress)
      else
        extract_new_ids cfg ok tProgress rest rows' seen' tProgress
    else
      extract_new_ids cfg ok tProgress rest rows seen lp

/-- The id list the extraction loop receives in an iteration: the visible
ids filtered to those not yet seen (line 605). -/
def newIdsOf (s : LoopState) (o : Obs) : List String :=
  (_list_visible_review_ids o.domIds).filter (fun rid => rid ∉ s.seen_ids)

namespace It

/-- lines 606-609: `no_new_rounds` after this scan. -/
def no_new_rounds (s : LoopState) (o : Obs) : Nat :=
  if (newIdsOf s o).isEmpty then s.no_new_rounds + 1 else 0

/-- line 612: guard of the first rebounce. -/
def tryReb1 (cfg : Config) (s : LoopState) : Bool :=
  !s.rebounce_done && decide (2 ≤ s.rounds)
    && decide (s.seen_ids.length < cfg.MIN_PLATEAU_COUNT)

/-- lines 614-616: the first rebounce completes (click succeeded and the
re-located container is scrollable). -/
def reb1hit (cfg : Config) (s : LoopState) (o : Obs) : Bool :=
  tryReb1 cfg s && o.rebounceClick
    && (match o.rebounceCand with | some c => c.scrollable | none => false)

/-- lines 617-621: container marker after the first rebounce (kept when the
marker evaluation raises). -/
def guid1 (cfg : Config) (s : LoopState) (o : Obs) : Option Nat :=
  if reb1hit cfg s o then
    (match o.rebounceCand with
     | some c => match c.guid with | some g => some g | none => s.last_container_guid
     | none => s.last_container_guid)
  else s.last_container_guid

/-- line 623: idle after the first rebounce. -/
def idle1 (cfg : Config) (s : LoopState) (o : Obs) : Nat :=
  if reb1hit cfg s o then 0 else s.idle

/-- line 623: `prev_scroll_state` after the first rebounce. -/
def prev1 (cfg : Config) (s : LoopState) (o : Obs) : Int × Int :=
  if reb1hit cfg s o then ((-1 : Int), (-1 : Int)) else s.prev_scroll_state

/-- line 624: `rebounce_done` after the first rebounce. -/
def done1 (cfg : Config) (s : LoopState) (o : Obs) : Bool :=
  s.rebounce_done || reb1hit cfg s o

/-- ghost: attempts after the first rebounce site (the click at line 614). -/
def att1 (cfg : Config) (s : LoopState) : Nat :=
  s.rebounceAttempts + (if tryReb1 cfg s then 1 else 0)

/-- ghost: completed rebounces after the first site. -/
def succ1 (cfg : Config) (s : LoopState) (o : Obs) : Nat :=
  s.rebounceSuccesses + (if reb1hit cfg s o then 1 else 0)

/-- ghost: `_set_sort_newest` calls after the first site (line 622). -/
def sort1 (cfg : Config) (s : LoopState) (o : Obs) : Nat :=
  s.sortApplications + (if reb1hit cfg s o then 1 else 0)

/-- lines 627-750: the extraction pass over the new ids. -/
def ext (cfg : Config) (s : LoopState) (o : Obs) : List String × List String × Nat :=
  extract_new_ids cfg o.extractOk o.tProgress (newIdsOf s o)
    s.rows s.seen_ids s.last_progress_ts

/-- `rows` after extraction. -/
def rows2 (cfg : Config) (s : LoopState) (o : Obs) : List String := (ext cfg s o).1

/-- `seen_ids` after extraction. -/
def seen2 (cfg : Config) (s : LoopState) (o : Obs) : List String := (ext cfg s o).2.1

/-- `last_progress_ts` after extraction. -/
def lp2 (cfg : Config) (s : LoopState) (o : Obs) : Nat := (ext cfg s o).2.2

/-- line 769: `no_growth` — the post-scroll metrics equal the previous
iteration's (as possibly reset by the first rebounce). -/
def no_growth (cfg : Config) (s : LoopState) (o : Obs) : Bool :=
  decide (o.scrollAfter = prev1 cfg s o)

/-- line 774: `total`. -/
def total (cfg : Config) (s : LoopState) (o : Obs) : Nat := (seen2 cfg s o).length

/-- line 775: `no_new_ids`. -/
def no_new_ids (cfg : Config) (s : LoopState) (o : Obs) : Bool :=
  decide (total cfg s o = s.prev_total)

/-- lines 777-781: idle update with the warming-up exception. -/
def idle2 (cfg : Config) (ui_total : Option Nat) (s : LoopState) (o : Obs) : Nat :=
  if ui_total.isNone && decide (total cfg s o < cfg.MIN_PLATEAU_COUNT) then 0
  else if no_new_ids cfg s o && no_growth cfg s o then idle1 cfg s o + 1 else 0

/-- line 784: the rebind branch is entered (stagnation detected; note
`before_seen` at line 756 already equals `total`, both being read after the
extraction pass). -/
def rebindTrigger (cfg : Config) (s : LoopState) (o : Obs) : Bool :=
  (no_new_ids cfg s o && no_growth cfg s o)
    || (decide (o.scrollBefore.1 = o.scrollAfter.1)
        && decide (o.scrollBefore.2 = o.scrollAfter.2)
        && decide (total cfg s o = (seen2 cfg s o).length))

/-- lines 785-790: marker of the rebind candidate (`none` when there is no
scrollable candidate or its marker evaluation raises). -/
def rebindGuid (o : Obs) : Option Nat :=
  match o.rebindCand with
  | some c => if c.scrollable then c.guid else none
  | none => none

/-- line 791: the rebind is taken — truthy marker differing from the active
container's. -/
def rebindHit (cfg : Config) (s : LoopState) (o : Obs) : Bool :=
  rebindTrigger cfg s o
    && (match rebindGuid o with
        | some g => decide (some g ≠ guid1 cfg s o)
        | none => false)

/-- lines 794-795: container marker after the rebind. -/
def guid2 (cfg : Config) (s : LoopState) (o : Obs) : Option Nat :=
  if rebindHit cfg s o then rebindGuid o else guid1 cfg s o

/-- line 797: idle after the rebind. -/
def idle3 (cfg : Config) (ui_total : Option Nat) (s : LoopState) (o : Obs) : Nat :=
  if rebindHit cfg s o then 0 else idle2 cfg ui_total s o

/-- lines 770, 798: `prev_scroll_state` after the rebind (set to the fresh
metrics at line 770, then possibly reset). -/
def prev3 (cfg : Config) (s : LoopState) (o : Obs) : Int × Int :=
  if rebindHit cfg s o then ((-1 : Int), (-1 : Int)) else o.scrollAfter

/-- ghost: `_set_sort_newest` calls after the rebind (line 796). -/
def sort2 (cfg : Config) (s : LoopState) (o : Obs) : Nat :=
  sort1 cfg s o + (if rebindHit cfg s o then 1 else 0)

/-- The state at the `break` of line 802 (prev_total and rounds not yet
advanced). -/
def brokeState (cfg : Config) (ui_total : Option Nat) (s : LoopState) (o : Obs) : LoopState :=
  { rows := rows2 cfg s o, seen_ids := seen2 cfg s o, idle := idle3 cfg ui_total s o,
    prev_total := s.prev_total, rounds := s.rounds,
    prev_scroll_state := prev3 cfg s o, no_new_rounds := no_new_rounds s o,
    rebounce_done := done1 cfg s o, last_container_guid := guid2 cfg s o,
    start_ts := s.start_ts, last_progress_ts := lp2 cfg s o,
    rebounceAttempts := att1 cfg s, rebounceSuccesses := succ1 cfg s o,
    sortApplications := sort2 cfg s o }

/-- line 805: guard of the second rebounce. -/
def tryReb2 (cfg : Config) (s : LoopState) (o : Obs) : Bool :=
  !done1 cfg s o && decide (3 ≤ no_new_rounds s o)
    && decide (total cfg s o < cfg.MIN_PLATEAU_COUNT)

/-- lines 807-809: the second rebounce completes. -/
def reb2hit (cfg : Config) (s : LoopState) (o : Obs) : Bool :=
  tryReb2 cfg s o && o.rebounceClick2
    && (match o.rebounceCand2 with | some c => c.scrollable | none => false)

/-- lines 810-813: container marker after the second rebounce. -/
def guid3 (cfg : Config) (s : LoopState) (o : Obs) : Option Nat :=
  if reb2hit cfg s o then
    (match o.rebounceCand2 with
     | some c => match c.guid with | some g => some g | none => guid2 cfg s o
     | none => guid2 cfg s o)
  else guid2 cfg s o

/-- The state after lines 805-819 (second rebounce applied, `prev_total` and
`rounds` advanced), which the bottom time checks either break with or pass
to the next iteration. -/
def contState (cfg : Config) (ui_total : Option Nat) (s : LoopState) (o : Obs) : LoopState :=
  { rows := rows2 cfg s o, seen_ids := seen2 cfg s o,
    idle := if reb2hit cfg s o then 0 else idle3 cfg ui_total s o,
    prev_total := total cfg s o, rounds := s.rounds + 1,
    prev_scroll_state := if reb2hit cfg s o then ((-1 : Int), (-1 : Int)) else prev3 cfg s o,
    no_new_rounds := no_new_rounds s o,
    rebounce_done := done1 cfg s o || reb2hit cfg s o,
    last_container_guid := guid3 cfg s o, start_ts := s.start_ts,
    last_progress_ts := lp2 cfg s o,
    rebounceAttempts := att1 cfg s + (if tryReb2 cfg s o then 1 else 0),
    rebounceSuccesses := succ1 cfg s o + (if reb2hit cfg s o then 1 else 0),
    sortApplications := sort2 cfg s o + (if reb2hit cfg s o then 1 else 0) }

end It

/-- One iteration of the `while` body (lines 599-827), after the `while`
condition has already passed: scan and extract, first rebounce, scroll-metric
bookkeeping, idle update, rebind, target break (801), second rebounce,
bottom wall-clock breaks (822-827). -/
def stepBody (cfg : Config) (ui_total : Option Nat) (s : LoopState) (o : Obs) : StepOut :=
  if _target_reached cfg ui_total (It.seen2 cfg s o).length then
    StepOut.broke (It.brokeState cfg ui_total s o) ExitReason.targetBreak
  else if decide (cfg.PLACE_HARD_TIMEOUT_SEC ≤ o.tEnd - s.start_ts) then
    StepOut.broke (It.contState cfg ui_total s o) ExitReason.hardTimeoutBreak
  else if decide (cfg.NO_PROGRESS_MAX_SECS ≤ o.tEnd - It.lp2 cfg s o) then
    StepOut.broke (It.contState cfg ui_total s o) ExitReason.noProgressBreak
  else
    StepOut.cont (It.contState cfg ui_total s o)

/-- The `while` condition (592-598), evaluated left to right with
short-circuiting; `tNow` is the clock at this check. -/
def loopCond (cfg : Config) (ui_total : Option Nat) (s : LoopState) (tNow : Nat) :
    Option ExitReason :=
  if ¬ s.idle < cfg.SCROLL_IDLE_ROUNDS then some ExitReason.idleLimit
  else if ¬ s.rounds < cfg.MAX_SCROLL_ROUNDS then some ExitReason.roundsLimit
  else if _target_reached cfg ui_total s.seen_ids.length then some ExitReason.targetCond
  else if cfg.PLACE_HARD_TIMEOUT_SEC ≤ tNow - s.start_ts then some ExitReason.hardTimeoutCond
  else if cfg.NO_PROGRESS_MAX_SECS ≤ tNow - s.last_progress_ts then some ExitReason.noProgressCond
  else none

/-- The whole loop: check the condition, run the body, repeat.  The final
state's `rows` field is what `scrape_place_reviews` returns (line 843) on
every one of these exits. -/
def runLoop (cfg : Config) (ui_total : Option Nat) :
    LoopState → List Obs → LoopState × ExitReason
  | s, [] => (s, ExitReason.outOfObs)
  | s, o :: rest =>
    match loopCond cfg ui_total s o.tCond with
    | some r => (s, r)
    | none =>
      match stepBody cfg ui_total s o with
      | StepOut.broke s' r => (s', r)
      | StepOut.cont s' => runLoop cfg ui_total s' rest

/-! ## Helper lemmas -/

lemma takeWhile_append_all {p : Char → Bool} {l : List Char} (h : ∀ c ∈ l, p c = true)
    {d : Char} (hd : p d = false) (r : List Char) :
    (l ++ d :: r).takeWhile p = l := by
  induction l with
  | nil => simp [List.takeWhile_cons, hd]
  | cons x xs ih =>
      have hx : p x = true := h x (by simp)
      simp [List.takeWhile_cons, hx, ih (fun c hc => h c (by simp [hc]))]

lemma findPSeg_cons_ne {c : Char} (l : List Char) (h : ¬ c = '/') :
    findPSeg (c :: l) = findPSeg l := by
  simp [findPSeg, h]

lemma findPSeg_append_noSlash (l1 l2 : List Char) (h : ∀ c ∈ l1, ¬ c = '/') :
    findPSeg (l1 ++ l2) = findPSeg l2 := by
  induction l1 with
  | nil => rfl
  | cons x xs ih =>
      rw [List.cons_append, findPSeg_cons_ne _ (h x (by simp))]
      exact ih (fun c hc => h c (by simp [hc]))

lemma findPSeg_cons2_ne {p q : Char} (l : List Char) (h : ¬ (p = 'p' ∧ q = '/')) :
    findPSeg ('/' :: p :: q :: l) = findPSeg (p :: q :: l) := by
  simp [findPSeg, h]

lemma findPSeg_hit (l : List Char) (hne : ¬ (l.takeWhile notPTok).isEmpty = true) :
    findPSeg ('/' :: 'p' :: '/' :: l) = some (l.takeWhile notPTok) := by
  simp [findPSeg, hne]

lemma findPSeg_sound : ∀ {l tok : List Char}, findPSeg l = some tok →
    tok ≠ [] ∧ ∀ c ∈ tok, notPTok c = true := by
  intro l
  induction l with
  | nil => intro tok h; simp [findPSeg] at h
  | cons c rest ih =>
      intro tok h
      rw [findPSeg.eq_def] at h
      simp only at h
      split at h
      · split at h
        · split at h
          · split at h
            · exact ih h
            · rename_i htok
              cases h
              exact ⟨by simpa [List.isEmpty_iff] using htok,
                fun d hd => List.mem_takeWhile_imp hd⟩
          · exact ih h
        · exact ih h
      · exact ih h

lemma findPSeg_canonical (tok : List Char) (hne : tok ≠ [])
    (hall : ∀ c ∈ tok, notPTok c = true) :
    findPSeg ("https://lh3.googleusercontent.com/p/" ++ String.mk tok ++ "=s0").data
      = some tok := by
  have h1 : "https://lh3.googleusercontent.com/p/".data
      = "https:".data ++ '/' :: '/' :: 'l' :: 'h' ::
          ("3.googleusercontent.com".data ++ ['/', 'p', '/']) := by decide
  have h2 : ("https://lh3.googleusercontent.com/p/" ++ String.mk tok ++ "=s0").data
      = "https:".data ++ '/' :: '/' :: 'l' :: 'h' ::
          ("3.googleusercontent.com".data ++ ('/' :: 'p' :: '/' :: (tok ++ ['=', 's', '0']))) := by
    simp only [String.data_append, h1]
    simp [List.append_assoc]
  rw [h2, findPSeg_append_noSlash _ _ (by decide),
      findPSeg_cons2_ne _ (by decide), findPSeg_cons2_ne _ (by decide)]
  have h3 : 'l' :: 'h' :: ("3.googleusercontent.com".data
        ++ ('/' :: 'p' :: '/' :: (tok ++ ['=', 's', '0'])))
      = ('l' :: 'h' :: "3.googleusercontent.com".data)
        ++ ('/' :: 'p' :: '/' :: (tok ++ ['=', 's', '0'])) := by simp
  rw [h3, findPSeg_append_noSlash _ _ (by decide)]
  have htw : (tok ++ '=' :: ['s', '0']).takeWhile notPTok = tok :=
    takeWhile_append_all hall (by decide) _
  rw [findPSeg_hit]
  · rw [htw]
  · rw [htw]; simpa [List.isEmpty_iff] using hne

/-! ## Claim C4: the date normalizer -/

/-- C4.  For a fixed reference instant, `_rel_to_iso` maps each supported
relative-date string to the offset of exactly the stated unit and magnitude
("3 hours ago" is three hours back, "yesterday"/"вчера" exactly one day,
checked before any unit pattern even when unit words are also present),
defaults the magnitude to 1 when the string carries no number, and yields
`none` (the Python `None`, raising nothing) on falsy or unrecognized input. -/
theorem rel_to_iso_spec :
    _rel_to_iso (some "3 hours ago") = some (TimeUnit.hours, 3)
    ∧ _rel_to_iso (some "yesterday") = some (TimeUnit.days, 1)
    ∧ _rel_to_iso (some "вчера") = some (TimeUnit.days, 1)
    ∧ _rel_to_iso (some "2 недели назад") = some (TimeUnit.weeks, 2)
    ∧ _rel_to_iso (some "a minute ago") = some (TimeUnit.minutes, 1)
    ∧ _rel_to_iso (some "yesterday, 2 hours ago") = some (TimeUnit.days, 1)
    ∧ _rel_to_iso (some "just now") = none
    ∧ _rel_to_iso none = none
    ∧ (∀ s u n, _rel_to_iso (some s) = some (u, n) →
        firstNumber ((pyStripList s.data).map pyLowerChar) = none → n = 1) := by
  refine ⟨by decide, by decide, by decide, by decide, by decide, by decide, by decide,
    rfl, ?_⟩
  intro s u n h hnum
  simp only [_rel_to_iso] at h
  split_ifs at h <;>
    simp only [Option.some.injEq, Prod.mk.injEq, numOrDefault, hnum, Option.getD_none] at h <;>
    omega

/-- Witness for the hypothesis-bearing conjunct of `rel_to_iso_spec`,
instantiated at "a minute ago" (no digit, magnitude defaults to 1). -/
theorem rel_to_iso_spec_witness :
    _rel_to_iso (some "a minute ago") = some (TimeUnit.minutes, 1) ∧ (1 : Nat) = 1 :=
  ⟨rel_to_iso_spec.2.2.2.2.1,
   rel_to_iso_spec.2.2.2.2.2.2.2.2 "a minute ago" TimeUnit.minutes 1
     (by decide) (by decide)⟩

/-! ## Claim C10: photo-URL normalization -/

/-- C10.  `_normalize_photo` is idempotent; when the URL contains a
`/p/<token>` segment (`findPSeg` embeds the `/p/([^=/?]+)` search) the result
is the canonical `https://lh3.googleusercontent.com/p/<token>=s0` large-size
form, and otherwise the input is returned unchanged. -/
theorem normalize_photo_spec :
    (∀ u, _normalize_photo (_normalize_photo u) = _normalize_photo u)
    ∧ (∀ u tok, findPSeg u.data = some tok →
        _normalize_photo u = "https://lh3.googleusercontent.com/p/" ++ String.mk tok ++ "=s0")
    ∧ (∀ u, findPSeg u.data = none → _normalize_photo u = u) := by
  refine ⟨?_, ?_, ?_⟩
  · intro u
    rcases h : findPSeg u.data with _ | tok
    · simp [_normalize_photo, h]
    · have hs := findPSeg_sound h
      simp only [_normalize_photo, h]
      rw [findPSeg_canonical tok hs.1 hs.2]
  · intro u tok h; simp [_normalize_photo, h]
  · intro u h; simp [_normalize_photo, h]

/-- Witness for `normalize_photo_spec` at a concrete URL containing a `/p/`
segment. -/
theorem normalize_photo_spec_witness :
    _normalize_photo "x/p/abc?y" = "https://lh3.googleusercontent.com/p/abc=s0"
    ∧ _normalize_photo (_normalize_photo "x/p/abc?y") = _normalize_photo "x/p/abc?y" :=
  ⟨(normalize_photo_spec.2.1 "x/p/abc?y" ['a', 'b', 'c'] (by decide)).trans (by decide),
   normalize_photo_spec.1 "x/p/abc?y"⟩

/-! ## Loop lemmas -/

/-- The state carried by a `StepOut`, whether the body continued or broke. -/
def outState : StepOut → LoopState
  | StepOut.cont s => s
  | StepOut.broke s _ => s

lemma insertId_length_le (seen : List String) (rid : String) :
    (insertId seen rid).length ≤ seen.length + 1 := by
  simp only [insertId]; split <;> simp

lemma insertId_mem (seen : List String) (rid x : String) (hx : x ∈ seen) :
    x ∈ insertId seen rid := by
  simp only [insertId]; split <;> simp [hx]

lemma insertId_not_mem (seen : List String) (rid : String) (h : rid ∉ seen) :
    insertId seen rid = seen ++ [rid] := by
  simp [insertId, h]

lemma extract_rows_append (cfg : Config) (ok : String → Bool) (tp : Nat) :
    ∀ pending rows seen lp, ∃ app,
      (extract_new_ids cfg ok tp pending rows seen lp).1 = rows ++ app := by
  intro pending
  induction pending with
  | nil => intro rows seen lp; exact ⟨[], by simp [extract_new_ids]⟩
  | cons rid rest ih =>
      intro rows seen lp
      simp only [extract_new_ids]
      split
      · split
        · exact ⟨[rid], rfl⟩
        · obtain ⟨app, happ⟩ := ih (rows ++ [rid]) (insertId seen rid) tp
          exact ⟨rid :: app, by simp [happ]⟩
      · exact ih rows seen lp

lemma extract_seen_len (cfg : Config) (ok : String → Bool) (tp : Nat) :
    ∀ pending rows seen lp,
      (extract_new_ids cfg ok tp pending rows seen lp).2.1.length
        ≤ seen.length + pending.length := by
  intro pending
  induction pending with
  | nil => intro rows seen lp; simp [extract_new_ids]
  | cons rid rest ih =>
      intro rows seen lp
      have hlen := insertId_length_le seen rid
      simp only [extract_new_ids]
      split
      · split
        · simp only [List.length_cons]
          simpa using by omega
        · refine Nat.le_trans (ih _ _ tp) ?_
          simp only [List.length_cons]
          omega
      · refine Nat.le_trans (ih _ _ lp) ?_
        simp only [List.length_cons]
        omega

lemma extract_seen_mono (cfg : Config) (ok : String → Bool) (tp : Nat) :
    ∀ pending rows seen lp x, x ∈ seen →
      x ∈ (extract_new_ids cfg ok tp pending rows seen lp).2.1 := by
  intro pending
  induction pending with
  | nil => intro rows seen lp x hx; simpa [extract_new_ids] using hx
  | cons rid rest ih =>
      intro rows seen lp x hx
      have hx' : x ∈ insertId seen rid := insertId_mem seen rid x hx
      simp only [extract_new_ids]
      split
      · split
        · simpa using hx'
        · exact ih _ _ tp x hx'
      · exact ih _ _ lp x hx

lemma extract_dedup (cfg : Config) (ok : String → Bool) (tp : Nat) :
    ∀ pending rows seen lp, (∀ r ∈ pending, r ∉ seen) → pending.Nodup →
      ∃ app, (extract_new_ids cfg ok tp pending rows seen lp).1 = rows ++ app
        ∧ (extract_new_ids cfg ok tp pending rows seen lp).2.1 = seen ++ app
        ∧ app.Nodup ∧ ∀ r ∈ app, r ∈ pending := by
  intro pending
  induction pending with
  | nil =>
      intro rows seen lp _ _
      exact ⟨[], by simp [extract_new_ids], by simp [extract_new_ids], List.nodup_nil, by simp⟩
  | cons rid rest ih =>
      intro rows seen lp hdisj hnd
      have hr : rid ∉ seen := hdisj rid (by simp)
      have hins : insertId seen rid = seen ++ [rid] := insertId_not_mem seen rid hr
      simp only [extract_new_ids]
      split
      · rw [hins]
        split
        · exact ⟨[rid], rfl, rfl, List.nodup_singleton rid, by simp⟩
        · have hdisj' : ∀ r ∈ rest, r ∉ seen ++ [rid] := by
            intro r hr'
            have h1 : r ∉ seen := hdisj r (by simp [hr'])
            have h2 : r ≠ rid := by
              rintro rfl
              exact (List.nodup_cons.mp hnd).1 hr'
            simp [h1, h2]
          obtain ⟨app, h1, h2, h3, h4⟩ := ih (rows ++ [rid]) (seen ++ [rid]) tp hdisj'
            (List.nodup_cons.mp hnd).2
          refine ⟨rid :: app, by simp [h1], by simp [h2], ?_, ?_⟩
          · refine List.nodup_cons.mpr ⟨fun hmem => ?_, h3⟩
            exact (List.nodup_cons.mp hnd).1 (h4 rid hmem)
          · intro r hr'
            rcases List.mem_cons.mp hr' with rfl | hr''
            · simp
            · simp [h4 r hr'']
      · have hdisj' : ∀ r ∈ rest, r ∉ seen := fun r hr' => hdisj r (by simp [hr'])
        obtain ⟨app, h1, h2, h3, h4⟩ := ih rows seen lp hdisj' (List.nodup_cons.mp hnd).2
        exact ⟨app, h1, h2, h3, fun r hr' => by simp [h4 r hr']⟩

lemma dedupFirst_aux_nodup :
    ∀ (l : List String) (acc : List String), acc.Nodup →
      (l.foldl (fun acc rid => if rid ∈ acc then acc else acc ++ [rid]) acc).Nodup := by
  intro l
  induction l with
  | nil => intro acc h; simpa using h
  | cons x xs ih =>
      intro acc h
      simp only [List.foldl_cons]
      split
      · exact ih acc h
      · rename_i hx
        exact ih _ (by simp [List.nodup_append, h, hx])

lemma list_visible_nodup (domIds : List String) :
    (_list_visible_review_ids domIds).Nodup :=
  dedupFirst_aux_nodup domIds [] List.nodup_nil

lemma newIdsOf_nodup (s : LoopState) (o : Obs) : (newIdsOf s o).Nodup :=
  (list_visible_nodup o.domIds).filter _

lemma newIdsOf_disjoint (s : LoopState) (o : Obs) :
    ∀ r ∈ newIdsOf s o, r ∉ s.seen_ids := by
  intro r hr
  have := List.of_mem_filter hr
  simpa using this

/-- Every outcome of an iteration carries the rows/seen produced by the
extraction phase, and the session start stamp is untouched. -/
lemma stepBody_out_fields (cfg : Config) (ui : Option Nat) (s : LoopState) (o : Obs) :
    (outState (stepBody cfg ui s o)).rows
        = (extract_new_ids cfg o.extractOk o.tProgress (newIdsOf s o)
            s.rows s.seen_ids s.last_progress_ts).1
    ∧ (outState (stepBody cfg ui s o)).seen_ids
        = (extract_new_ids cfg o.extractOk o.tProgress (newIdsOf s o)
            s.rows s.seen_ids s.last_progress_ts).2.1
    ∧ (outState (stepBody cfg ui s o)).start_ts = s.start_ts := by
  simp only [stepBody]
  split_ifs <;>
    exact ⟨rfl, rfl, rfl⟩

lemma stepBody_rows_append (cfg : Config) (ui : Option Nat) (s : LoopState) (o : Obs) :
    ∃ app, (outState (stepBody cfg ui s o)).rows = s.rows ++ app := by
  obtain ⟨app, happ⟩ := extract_rows_append cfg o.extractOk o.tProgress (newIdsOf s o)
    s.rows s.seen_ids s.last_progress_ts
  exact ⟨app, by rw [(stepBody_out_fields cfg ui s o).1, happ]⟩

/-! ## Claim C8: every loop exit returns the accumulated records -/

/-- C8.  Whatever makes `runLoop` stop — idle threshold, iteration cap,
target reached, hard session budget, no-progress budget (as a `while`
condition failure or a `break`), or the observation stream ending — the
returned state's `rows` are the starting rows extended in place: no exit
path discards accumulated records, and `scrape_place_reviews` returns
exactly this `rows` list (line 843). -/
theorem no_discard_exits (cfg : Config) (ui : Option Nat) :
    ∀ obs s, ∃ app, (runLoop cfg ui s obs).1.rows = s.rows ++ app := by
  intro obs
  induction obs with
  | nil => intro s; exact ⟨[], by simp [runLoop]⟩
  | cons o rest ih =>
      intro s
      simp only [runLoop]
      cases hc : loopCond cfg ui s o.tCond with
      | some r => exact ⟨[], by simp⟩
      | none =>
          cases hstep : stepBody cfg ui s o with
          | broke s' r =>
              obtain ⟨app, happ⟩ := stepBody_rows_append cfg ui s o
              rw [hstep] at happ
              exact ⟨app, happ⟩
          | cont s' =>
              obtain ⟨app1, h1⟩ := stepBody_rows_append cfg ui s o
              rw [hstep] at h1
              obtain ⟨app2, h2⟩ := ih s'
              exact ⟨app1 ++ app2, by simp [h2, outState] at h1 ⊢; simp [h1, h2]⟩

/-! ## Claim C3: identifier de-duplication -/

lemma stepBody_dedup (cfg : Config) (ui : Option Nat) (s : LoopState) (o : Obs)
    (hnd : s.rows.Nodup) (hsub : ∀ r ∈ s.rows, r ∈ s.seen_ids) :
    (outState (stepBody cfg ui s o)).rows.Nodup
    ∧ (∀ r ∈ (outState (stepBody cfg ui s o)).rows,
        r ∈ (outState (stepBody cfg ui s o)).seen_ids)
    ∧ (∀ x ∈ s.seen_ids, x ∈ (outState (stepBody cfg ui s o)).seen_ids)
    ∧ (∀ rid ∈ s.seen_ids,
        (outState (stepBody cfg ui s o)).rows.count rid = s.rows.count rid) := by
  obtain ⟨hrows, hseen, -⟩ := stepBody_out_fields cfg ui s o
  obtain ⟨app, h1, h2, h3, h4⟩ := extract_dedup cfg o.extractOk o.tProgress (newIdsOf s o)
    s.rows s.seen_ids s.last_progress_ts (newIdsOf_disjoint s o) (newIdsOf_nodup s o)
  rw [hrows, hseen, h1, h2]
  have happnotseen : ∀ r ∈ app, r ∉ s.seen_ids :=
    fun r hr => newIdsOf_disjoint s o r (h4 r hr)
  refine ⟨?_, ?_, ?_, ?_⟩
  · refine List.Nodup.append hnd h3 ?_
    intro r hr hrapp
    exact happnotseen r hrapp (hsub r hr)
  · intro r hr
    rcases List.mem_append.mp hr with h | h
    · exact List.mem_append.mpr (Or.inl (hsub r h))
    · exact List.mem_append.mpr (Or.inr h)
  · intro x hx
    exact List.mem_append.mpr (Or.inl hx)
  · intro rid hrid
    rw [List.count_append]
    have : app.count rid = 0 := by
      rw [List.count_eq_zero]
      intro hmem
      exact happnotseen rid hmem hrid
    omega

/-- C3.  Within one session at most one record is ever appended per review
identifier (the rows stay duplicate-free); every appended row's identifier
is in the seen set; the seen set only grows; and an identifier that is
already seen is never extracted again — its occurrence count among the rows
never changes once it is in the seen set (a re-observation in the next scan
iteration is skipped). -/
theorem identifier_dedup (cfg : Config) (ui : Option Nat) :
    ∀ obs s, s.rows.Nodup → (∀ r ∈ s.rows, r ∈ s.seen_ids) →
      (runLoop cfg ui s obs).1.rows.Nodup
      ∧ (∀ r ∈ (runLoop cfg ui s obs).1.rows, r ∈ (runLoop cfg ui s obs).1.seen_ids)
      ∧ (∀ x ∈ s.seen_ids, x ∈ (runLoop cfg ui s obs).1.seen_ids)
      ∧ (∀ rid ∈ s.seen_ids,
          (runLoop cfg ui s obs).1.rows.count rid = s.rows.count rid) := by
  intro obs
  induction obs with
  | nil =>
      intro s hnd hsub
      exact ⟨hnd, hsub, fun x hx => hx, fun rid _ => rfl⟩
  | cons o rest ih =>
      intro s hnd hsub
      simp only [runLoop]
      cases hc : loopCond cfg ui s o.tCond with
      | some r => exact ⟨hnd, hsub, fun x hx => hx, fun rid _ => rfl⟩
      | none =>
          have hstep := stepBody_dedup cfg ui s o hnd hsub
          cases hout : stepBody cfg ui s o with
          | broke s' r =>
              rw [hout] at hstep
              simp only [outState] at hstep
              exact hstep
          | cont s' =>
              rw [hout] at hstep
              simp only [outState] at hstep
              obtain ⟨hnd', hsub', hmono', hcount'⟩ := hstep
              obtain ⟨hnd'', hsub'', hmono'', hcount''⟩ := ih s' hnd' hsub'
              refine ⟨hnd'', hsub'', ?_, ?_⟩
              · intro x hx
                exact hmono'' x (hmono' x hx)
              · intro rid hrid
                rw [hcount'' rid (hmono' rid hrid), hcount' rid hrid]

/-- Concrete observation for the de-duplication witness: one visible id "r1",
successful extraction, clocks inside all budgets. -/
def cObs3 : Obs :=
  { tCond := 1, domIds := ["r1"], rebounceClick := false, rebounceCand := none,
    rebounceClick2 := false, rebounceCand2 := none, extractOk := fun _ => true,
    tProgress := 1, scrollBefore := (0, 500), scrollAfter := (10, 500),
    rebindCand := none, tEnd := 2 }

/-- Witness for `identifier_dedup`: the id "r1" is visible in two consecutive
iterations, is appended exactly once, and the final rows are duplicate-free. -/
theorem identifier_dedup_witness :
    (runLoop defaultConfig (some 100) (initState 0 none) [cObs3, cObs3]).1.rows = ["r1"]
    ∧ (runLoop defaultConfig (some 100) (initState 0 none) [cObs3, cObs3]).1.rows.Nodup :=
  ⟨by decide,
   (identifier_dedup defaultConfig (some 100) [cObs3, cObs3] (initState 0 none)
      (by decide) (by decide)).1⟩

/-! ## Claim C5: the rebounce budget

Both rebounce sites are guarded by the single `rebounce_done` flag, which is
set only when a rebounce *completes* (click succeeded and a scrollable
container was adopted).  Hence completed rebounces are bounded by one per
session — but mere *attempts* (clicks) are not bounded by two: a failing
click leaves the flag unset and the site fires again on every later
iteration. -/

/-- Completed rebounces plus the remaining budget of the shared flag. -/
def rebouncePotential (s : LoopState) : Nat :=
  s.rebounceSuccesses + (if s.rebounce_done then 0 else 1)

lemma reb1hit_done (cfg : Config) (s : LoopState) (o : Obs)
    (h : It.reb1hit cfg s o = true) : s.rebounce_done = false := by
  by_contra hne
  have hd : s.rebounce_done = true := by revert hne; cases s.rebounce_done <;> simp
  simp [It.reb1hit, It.tryReb1, hd] at h

lemma reb2hit_done (cfg : Config) (s : LoopState) (o : Obs)
    (h : It.reb2hit cfg s o = true) : It.done1 cfg s o = false := by
  by_contra hne
  have hd : It.done1 cfg s o = true := by revert hne; cases It.done1 cfg s o <;> simp
  simp [It.reb2hit, It.tryReb2, hd] at h

lemma brokeState_potential (cfg : Config) (ui : Option Nat) (s : LoopState) (o : Obs) :
    rebouncePotential (It.brokeState cfg ui s o) = rebouncePotential s := by
  simp only [rebouncePotential, It.brokeState, It.succ1, It.done1]
  by_cases hd : s.rebounce_done = true
  · have hr : It.reb1hit cfg s o = false := by
      by_cases hr : It.reb1hit cfg s o = true
      · exact absurd (reb1hit_done cfg s o hr) (by simp [hd])
      · exact Bool.eq_false_iff.mpr hr
    simp [hd, hr]
  · have hd' : s.rebounce_done = false := Bool.eq_false_iff.mpr hd
    by_cases hr : It.reb1hit cfg s o = true
    · simp [hd', hr]
    · simp [hd', Bool.eq_false_iff.mpr hr]

lemma contState_potential (cfg : Config) (ui : Option Nat) (s : LoopState) (o : Obs) :
    rebouncePotential (It.contState cfg ui s o) = rebouncePotential s := by
  simp only [rebouncePotential, It.contState, It.succ1, It.done1]
  by_cases h2 : It.reb2hit cfg s o = true
  · have hd1 := reb2hit_done cfg s o h2
    simp only [It.done1, Bool.or_eq_false_iff] at hd1
    simp [hd1.1, hd1.2, h2]
  · have h2' : It.reb2hit cfg s o = false := Bool.eq_false_iff.mpr h2
    by_cases hd : s.rebounce_done = true
    · have hr : It.reb1hit cfg s o = false := by
        by_cases hr : It.reb1hit cfg s o = true
        · exact absurd (reb1hit_done cfg s o hr) (by simp [hd])
        · exact Bool.eq_false_iff.mpr hr
      simp [hd, hr, h2']
    · have hd' : s.rebounce_done = false := Bool.eq_false_iff.mpr hd
      by_cases hr : It.reb1hit cfg s o = true
      · simp [hd', hr, h2']
      · simp [hd', Bool.eq_false_iff.mpr hr, h2']

lemma stepBody_potential (cfg : Config) (ui : Option Nat) (s : LoopState) (o : Obs) :
    rebouncePotential (outState (stepBody cfg ui s o)) = rebouncePotential s := by
  simp only [stepBody]
  split_ifs <;> simp only [outState] <;>
    first
      | exact brokeState_potential cfg ui s o
      | exact contState_potential cfg ui s o

lemma runLoop_potential (cfg : Config) (ui : Option Nat) : ∀ (obs : List Obs) (s : LoopState),
    rebouncePotential (runLoop cfg ui s obs).1 = rebouncePotential s := by
  intro obs
  induction obs with
  | nil => intro s; rfl
  | cons o rest ih =>
      intro s
      simp only [runLoop]
      cases hc : loopCond cfg ui s o.tCond with
      | some r => rfl
      | none =>
          have hp := stepBody_potential cfg ui s o
          cases hout : stepBody cfg ui s o with
          | broke s' r => rw [hout] at hp; simpa [outState] using hp
          | cont s' =>
              rw [hout] at hp
              simp only [outState] at hp
              rw [ih s', hp]

/-- C5 (amended).  A *completed* rebounce (re-click succeeded and a
scrollable container was adopted) happens at most once per session: both the
iteration-2 site and the 3-consecutive-no-new-rounds site are disabled by the
one shared `rebounce_done` flag, which only a completed rebounce sets.
Starting with the flag clear, the whole loop adds at most one completed
rebounce; with the flag set, none. -/
theorem rebounce_at_most_one_success (cfg : Config) (ui : Option Nat) (s : LoopState)
    (obs : List Obs) :
    (runLoop cfg ui s obs).1.rebounceSuccesses
      ≤ s.rebounceSuccesses + (if s.rebounce_done then 0 else 1) := by
  have h := runLoop_potential cfg ui obs s
  simp only [rebouncePotential] at h
  omega

/-- Concrete observation for the rebounce counterexample: an empty frozen
feed whose "all reviews" control never reacts (both clicks fail). -/
def cObs5 : Obs :=
  { tCond := 0, domIds := [], rebounceClick := false, rebounceCand := none,
    rebounceClick2 := false, rebounceCand2 := none, extractOk := fun _ => false,
    tProgress := 0, scrollBefore := (0, 100), scrollAfter := (0, 100),
    rebindCand := none, tEnd := 0 }

/-- Counterexample to C5 as stated: with the UI total unknown and an empty
frozen feed whose rebounce clicks fail, four loop iterations perform four
rebounce attempts (iteration 3 fires both sites, iteration 4 fires both
again) — strictly more than two. -/
theorem rebounce_attempts_counterexample :
    (runLoop defaultConfig none (initState 0 none)
        (List.replicate 4 cObs5)).1.rebounceAttempts = 4
    ∧ 2 < (runLoop defaultConfig none (initState 0 none)
        (List.replicate 4 cObs5)).1.rebounceAttempts :=
  ⟨by decide, by decide⟩

/-! ## Claim C6: warming-up suppression of idle termination -/

/-- C6.  In any iteration that continues the loop while the UI-advertised
total is unknown and the accumulated count is below the minimum plateau,
the idle counter ends the iteration at 0 (line 779 forces it, and the later
rebind/rebounce writes can only reset it again), so the next `while` check
cannot exit through the idle threshold. -/
theorem warming_up_suppression (cfg : Config) (s : LoopState) (o : Obs) (s' : LoopState)
    (h : stepBody cfg none s o = StepOut.cont s')
    (hlow : s'.seen_ids.length < cfg.MIN_PLATEAU_COUNT) :
    s'.idle = 0
    ∧ (0 < cfg.SCROLL_IDLE_ROUNDS →
        ∀ t, loopCond cfg none s' t ≠ some ExitReason.idleLimit) := by
  have hs' : s' = It.contState cfg none s o := by
    simp only [stepBody] at h
    split_ifs at h
    all_goals first
      | exact StepOut.noConfusion h
      | (injection h with h1; exact h1.symm)
  subst hs'
  have hlow' : It.total cfg s o < cfg.MIN_PLATEAU_COUNT := by
    simpa [It.contState, It.total] using hlow
  have h2 : It.idle2 cfg none s o = 0 := by
    simp [It.idle2, hlow']
  have hidle : (It.contState cfg none s o).idle = 0 := by
    simp [It.contState, It.idle3, h2]
  refine ⟨hidle, fun hN t => ?_⟩
  simp only [loopCond, hidle]
  split_ifs with hi <;> simp_all

/-- Concrete observation for the warming-up witness: empty feed, UI total
unknown, all clocks inside the budgets. -/
def cObs6 : Obs :=
  { tCond := 0, domIds := [], rebounceClick := false, rebounceCand := none,
    rebounceClick2 := false, rebounceCand2 := none, extractOk := fun _ => false,
    tProgress := 0, scrollBefore := (0, 100), scrollAfter := (0, 100),
    rebindCand := none, tEnd := 0 }

/-- Witness for `warming_up_suppression` at a concrete warming-up iteration. -/
theorem warming_up_suppression_witness :
    stepBody defaultConfig none (initState 0 none) cObs6
      = StepOut.cont (It.contState defaultConfig none (initState 0 none) cObs6)
    ∧ (It.contState defaultConfig none (initState 0 none) cObs6).idle = 0 := by
  have h : stepBody defaultConfig none (initState 0 none) cObs6
      = StepOut.cont (It.contState defaultConfig none (initState 0 none) cObs6) := by decide
  exact ⟨h, (warming_up_suppression defaultConfig (initState 0 none) cObs6 _ h (by decide)).1⟩

/-! ## Claim C2: target-reached termination -/

lemma target_false_lt (cfg : Config) (T n : Nat)
    (h : _target_reached cfg (some T) n = false) : n < T - cfg.UI_LAG_TOLERANCE := by
  simp only [_target_reached, Bool.or_eq_false_iff, Bool.and_eq_false_iff,
    decide_eq_false_iff_not] at h
  omega

lemma loopCond_none_target (cfg : Config) (ui : Option Nat) (s : LoopState) (t : Nat)
    (h : loopCond cfg ui s t = none) :
    _target_reached cfg ui s.seen_ids.length = false := by
  simp only [loopCond] at h
  split_ifs at h
  all_goals simp_all

lemma stepBody_seen_le (cfg : Config) (ui : Option Nat) (s : LoopState) (o : Obs) :
    (outState (stepBody cfg ui s o)).seen_ids.length
      ≤ s.seen_ids.length + (_list_visible_review_ids o.domIds).length := by
  rw [(stepBody_out_fields cfg ui s o).2.1]
  refine Nat.le_trans (extract_seen_len cfg o.extractOk o.tProgress _ _ _ _) ?_
  have hf : (newIdsOf s o).length ≤ (_list_visible_review_ids o.domIds).length :=
    List.length_filter_le _ _
  omega

/-- C2 (amended).  With advertised total T and tolerance L: (a) once the
seen-count has reached max(0, T − L) the loop performs no further iteration
— the state is returned as is; (b) because the threshold is only consulted
between scan batches, the accumulated count is bounded by
max(0, T − L) − 1 plus the size of one scan batch, not by T + L: a single
batch may overshoot the advertised total by more than the tolerance. -/
theorem target_reached_termination (cfg : Config) (T : Nat) :
    (∀ (s : LoopState) (obs : List Obs),
        _target_reached cfg (some T) s.seen_ids.length = true →
        (runLoop cfg (some T) s obs).1 = s)
    ∧ (∀ (b : Nat) (obs : List Obs) (s : LoopState),
        (∀ o ∈ obs, (_list_visible_review_ids o.domIds).length ≤ b) →
        (runLoop cfg (some T) s obs).1.seen_ids.length
          ≤ max s.seen_ids.length (T - cfg.UI_LAG_TOLERANCE - 1 + b)) := by
  constructor
  · intro s obs h
    cases obs with
    | nil => rfl
    | cons o rest =>
        simp only [runLoop, loopCond, h]
        split_ifs <;> rfl
  · intro b obs
    induction obs with
    | nil =>
        intro s hb
        simp only [runLoop]
        exact Nat.le_max_left _ _
    | cons o rest ih =>
        intro s hb
        simp only [runLoop]
        cases hc : loopCond cfg (some T) s o.tCond with
        | some r => exact Nat.le_max_left _ _
        | none =>
            have hlt : s.seen_ids.length < T - cfg.UI_LAG_TOLERANCE :=
              target_false_lt cfg T _ (loopCond_none_target cfg (some T) s o.tCond hc)
            have hbatch : (_list_visible_review_ids o.domIds).length ≤ b := hb o (by simp)
            have hstep := stepBody_seen_le cfg (some T) s o
            cases hout : stepBody cfg (some T) s o with
            | broke s' r =>
                rw [hout] at hstep
                simp only [outState] at hstep
                have hb' : s'.seen_ids.length ≤ T - cfg.UI_LAG_TOLERANCE - 1 + b := by omega
                exact Nat.le_trans hb' (Nat.le_max_right _ _)
            | cont s' =>
                rw [hout] at hstep
                simp only [outState] at hstep
                have hs' : s'.seen_ids.length ≤ T - cfg.UI_LAG_TOLERANCE - 1 + b := by omega
                refine Nat.le_trans (ih s' (fun o' ho' => hb o' (by simp [ho']))) ?_
                have hmax : max s'.seen_ids.length (T - cfg.UI_LAG_TOLERANCE - 1 + b)
                    = T - cfg.UI_LAG_TOLERANCE - 1 + b := by omega
                rw [hmax]
                exact Nat.le_max_right _ _

/-- Concrete state for the target-reached witness: two ids already seen. -/
def cState2 : LoopState :=
  { initState 0 none with seen_ids := ["a", "b"], prev_total := 2 }

/-- Witness for `target_reached_termination`: with T = 5, L = 3 the
threshold max(0, 5-3) = 2 is met by two seen ids, and the loop returns the
state unchanged; the batch bound holds with b = 0. -/
theorem target_reached_termination_witness :
    (runLoop defaultConfig (some 5) cState2 []).1 = cState2
    ∧ (runLoop defaultConfig (some 5) cState2 []).1.seen_ids.length
        ≤ max cState2.seen_ids.length (5 - defaultConfig.UI_LAG_TOLERANCE - 1 + 0) :=
  ⟨(target_reached_termination defaultConfig 5).1 cState2 [] (by decide),
   (target_reached_termination defaultConfig 5).2 0 [] cState2 (by simp)⟩

/-- Concrete observation for the overshoot counterexample: one scan batch
revealing 14 distinct identifiers, all of which parse. -/
def cObs2 : Obs :=
  { tCond := 1,
    domIds := ["a", "b", "c", "d", "e", "f", "g", "h", "i", "j", "k", "l", "m", "n"],
    rebounceClick := false, rebounceCand := none, rebounceClick2 := false,
    rebounceCand2 := none, extractOk := fun _ => true, tProgress := 1,
    scrollBefore := (0, 500), scrollAfter := (10, 500), rebindCand := none, tEnd := 2 }

/-- Counterexample to C2 as stated: advertised total T = 10 and tolerance
L = 3, yet a single scan batch revealing 14 identifiers is appended in full
— 14 > T + L = 13 — because the target check only runs after the batch; the
loop then stops via the target break. -/
theorem target_overshoot_counterexample :
    (runLoop defaultConfig (some 10) (initState 0 none) [cObs2]).1.rows.length = 14
    ∧ 10 + defaultConfig.UI_LAG_TOLERANCE
        < (runLoop defaultConfig (some 10) (initState 0 none) [cObs2]).1.rows.length
    ∧ (runLoop defaultConfig (some 10) (initState 0 none) [cObs2]).2
        = ExitReason.targetBreak :=
  ⟨by decide, by decide, by decide⟩

/-! ## Stalled iterations (shared by claims C1 and C7)

A *stalled* iteration is one in which the DOM shows no unseen identifier,
the scroll metrics are frozen (both reads equal the previous iteration's),
and neither timeout fires.  The lemmas below compute `stepBody` exactly on
such an iteration, once for a locator that returns no usable new container
(claim C1) and once for a locator that returns a container with a fresh
identity marker (claim C7). -/

lemma dedupFirst_aux_subset :
    ∀ (l acc : List String) (x : String),
      x ∈ l.foldl (fun acc rid => if rid ∈ acc then acc else acc ++ [rid]) acc →
      x ∈ acc ∨ x ∈ l := by
  intro l
  induction l with
  | nil => intro acc x h; exact Or.inl (by simpa using h)
  | cons y ys ih =>
      intro acc x h
      simp only [List.foldl_cons] at h
      rcases ih _ x h with h' | h'
      · by_cases hy : y ∈ acc
        · rw [if_pos hy] at h'
          exact Or.inl h'
        · rw [if_neg hy] at h'
          rcases List.mem_append.mp h' with h'' | h''
          · exact Or.inl h''
          · simp only [List.mem_singleton] at h''
            subst h''
            exact Or.inr (by simp)
      · exact Or.inr (by simp [h'])

lemma newIdsOf_nil (s : LoopState) (o : Obs)
    (hIds : ∀ rid ∈ o.domIds, rid ∈ s.seen_ids) : newIdsOf s o = [] := by
  rw [newIdsOf, List.filter_eq_nil_iff]
  intro a ha
  rcases dedupFirst_aux_subset o.domIds [] a ha with h | h
  · simp at h
  · simp [hIds a h]

lemma guid1_of_plateau (cfg : Config) (s : LoopState) (o : Obs)
    (hPlateau : cfg.MIN_PLATEAU_COUNT ≤ s.seen_ids.length) :
    It.guid1 cfg s o = s.last_container_guid := by
  have hc : decide (s.seen_ids.length < cfg.MIN_PLATEAU_COUNT) = false := by
    simp
    omega
  simp [It.guid1, It.reb1hit, It.tryReb1, hc]

/-- The rebind locator call yields no container usable for a switch: either
no scrollable candidate with a truthy marker, or the same marker as the
active container's. -/
def rebindKeepsContainer (g : Option Nat) (o : Obs) : Prop :=
  It.rebindGuid o = none ∨ It.rebindGuid o = g

lemma rebindHit_false_aux (cfg : Config) (s : LoopState) (o : Obs) (g : Option Nat)
    (hg1 : It.guid1 cfg s o = g)
    (h : It.rebindGuid o = none ∨ It.rebindGuid o = g) :
    It.rebindHit cfg s o = false := by
  rcases h with h | h
  · simp [It.rebindHit, h]
  · cases g with
    | none => simp [It.rebindHit, h]
    | some x => simp [It.rebindHit, h, hg1]

/-- Exact value of `stepBody` on a stalled iteration, in the two locator
regimes. -/
lemma stepBody_stalled (cfg : Config) (ui : Option Nat) (s : LoopState) (o : Obs)
    (hIds : ∀ rid ∈ o.domIds, rid ∈ s.seen_ids)
    (hPlateau : cfg.MIN_PLATEAU_COUNT ≤ s.seen_ids.length)
    (hPrev : s.prev_scroll_state = o.scrollAfter)
    (hPrevTotal : s.prev_total = s.seen_ids.length)
    (hNoTarget : _target_reached cfg ui s.seen_ids.length = false)
    (hT3 : o.tEnd - s.start_ts < cfg.PLACE_HARD_TIMEOUT_SEC)
    (hT4 : o.tEnd - s.last_progress_ts < cfg.NO_PROGRESS_MAX_SECS) :
    (rebindKeepsContainer s.last_container_guid o →
      stepBody cfg ui s o = StepOut.cont
        { s with
          idle := s.idle + 1, prev_total := s.seen_ids.length,
          rounds := s.rounds + 1, no_new_rounds := s.no_new_rounds + 1,
          prev_scroll_state := o.scrollAfter })
    ∧ (∀ g : Nat, It.rebindGuid o = some g → some g ≠ s.last_container_guid →
      stepBody cfg ui s o = StepOut.cont
        { s with
          idle := 0, prev_total := s.seen_ids.length,
          rounds := s.rounds + 1, no_new_rounds := s.no_new_rounds + 1,
          prev_scroll_state := ((-1 : Int), (-1 : Int)),
          last_container_guid := some g,
          sortApplications := s.sortApplications + 1 }) := by
  have hnew : newIdsOf s o = [] := newIdsOf_nil s o hIds
  have hplat : decide (s.seen_ids.length < cfg.MIN_PLATEAU_COUNT) = false := by
    simp
    omega
  have htry1 : It.tryReb1 cfg s = false := by simp [It.tryReb1, hplat]
  have hhit1 : It.reb1hit cfg s o = false := by simp [It.reb1hit, htry1]
  have hext : It.ext cfg s o = (s.rows, s.seen_ids, s.last_progress_ts) := by
    simp [It.ext, hnew, extract_new_ids]
  have hrows2 : It.rows2 cfg s o = s.rows := by simp [It.rows2, hext]
  have hseen2 : It.seen2 cfg s o = s.seen_ids := by simp [It.seen2, hext]
  have hlp2 : It.lp2 cfg s o = s.last_progress_ts := by simp [It.lp2, hext]
  have htotal : It.total cfg s o = s.seen_ids.length := by simp [It.total, hseen2]
  have hprev1 : It.prev1 cfg s o = o.scrollAfter := by simp [It.prev1, hhit1, hPrev]
  have hng : It.no_growth cfg s o = true := by simp [It.no_growth, hprev1]
  have hnni : It.no_new_ids cfg s o = true := by
    simp [It.no_new_ids, htotal, hPrevTotal]
  have hidle1 : It.idle1 cfg s o = s.idle := by simp [It.idle1, hhit1]
  have hidle2 : It.idle2 cfg ui s o = s.idle + 1 := by
    simp [It.idle2, htotal, hplat, hng, hnni, hidle1]
  have hguid1 : It.guid1 cfg s o = s.last_container_guid := by simp [It.guid1, hhit1]
  have hdone1 : It.done1 cfg s o = s.rebounce_done := by simp [It.done1, hhit1]
  have htry2 : It.tryReb2 cfg s o = false := by simp [It.tryReb2, htotal, hplat]
  have hhit2 : It.reb2hit cfg s o = false := by simp [It.reb2hit, htry2]
  have hnnr : It.no_new_rounds s o = s.no_new_rounds + 1 := by
    simp [It.no_new_rounds, hnew]
  have hatt1 : It.att1 cfg s = s.rebounceAttempts := by simp [It.att1, htry1]
  have hsucc1 : It.succ1 cfg s o = s.rebounceSuccesses := by simp [It.succ1, hhit1]
  have hsort1 : It.sort1 cfg s o = s.sortApplications := by simp [It.sort1, hhit1]
  have htgt : _target_reached cfg ui (It.seen2 cfg s o).length = false := by
    rw [hseen2]
    exact hNoTarget
  have ht3 : decide (cfg.PLACE_HARD_TIMEOUT_SEC ≤ o.tEnd - s.start_ts) = false := by
    simp
    omega
  have ht4 : decide (cfg.NO_PROGRESS_MAX_SECS ≤ o.tEnd - It.lp2 cfg s o) = false := by
    rw [hlp2]
    simp
    omega
  have htrig : It.rebindTrigger cfg s o = true := by
    simp [It.rebindTrigger, hnni, hng]
  constructor
  · intro hKeep
    have hrb : It.rebindHit cfg s o = false :=
      rebindHit_false_aux cfg s o s.last_container_guid hguid1 hKeep
    have hcont : It.contState cfg ui s o
        = { s with
            idle := s.idle + 1, prev_total := s.seen_ids.length,
            rounds := s.rounds + 1, no_new_rounds := s.no_new_rounds + 1,
            prev_scroll_state := o.scrollAfter } := by
      simp [It.contState, It.guid3, It.guid2, It.idle3, It.prev3, It.sort2, hhit2, htry2,
        hrows2, hseen2, hlp2, htotal, hrb, hidle2, hguid1, hdone1, hnnr, hatt1, hsucc1,
        hsort1]
    simp only [stepBody, htgt, ht3, ht4]
    simp [hcont]
  · intro g hGuid hNe
    have hrb : It.rebindHit cfg s o = true := by
      simp [It.rebindHit, htrig, hGuid, hguid1, hNe]
    have hcont : It.contState cfg ui s o
        = { s with
            idle := 0, prev_total := s.seen_ids.length,
            rounds := s.rounds + 1, no_new_rounds := s.no_new_rounds + 1,
            prev_scroll_state := ((-1 : Int), (-1 : Int)),
            last_container_guid := some g,
            sortApplications := s.sortApplications + 1 } := by
      simp [It.contState, It.guid3, It.idle3, It.prev3, It.sort2, hhit2, htry2, hrows2,
        hseen2, hlp2, htotal, hrb, hGuid, hdone1, hnnr, hatt1, hsucc1, hsort1, It.guid2]
    simp only [stepBody, htgt, ht3, ht4]
    simp [hcont]

/-! ## Claim C1: idle termination -/

/-- The state after `k` consecutive stalled iterations from `s`: idle,
rounds and the no-new counter each advanced by `k`; `prev_total` and
`prev_scroll_state` pinned at the frozen measurements. -/
def frozenIter (s : LoopState) (o : Obs) (k : Nat) : LoopState :=
  { s with
    idle := s.idle + k, rounds := s.rounds + k,
    no_new_rounds := s.no_new_rounds + k,
    prev_total := s.seen_ids.length, prev_scroll_state := o.scrollAfter }

lemma frozenIter_zero (s : LoopState) (o : Obs)
    (hPrev : s.prev_scroll_state = o.scrollAfter)
    (hPrevTotal : s.prev_total = s.seen_ids.length) : frozenIter s o 0 = s := by
  rw [frozenIter, ← hPrev, ← hPrevTotal]
  simp

lemma frozen_cond (cfg : Config) (ui : Option Nat) (s : LoopState) (o : Obs) (k : Nat)
    (hIdle0 : s.idle = 0) (hk : k < cfg.SCROLL_IDLE_ROUNDS)
    (hRounds : s.rounds + cfg.SCROLL_IDLE_ROUNDS ≤ cfg.MAX_SCROLL_ROUNDS)
    (hNoTarget : _target_reached cfg ui s.seen_ids.length = false)
    (hT1 : o.tCond - s.start_ts < cfg.PLACE_HARD_TIMEOUT_SEC)
    (hT2 : o.tCond - s.last_progress_ts < cfg.NO_PROGRESS_MAX_SECS) :
    loopCond cfg ui (frozenIter s o k) o.tCond = none := by
  simp only [loopCond, frozenIter]
  split_ifs <;>
    first
      | rfl
      | (exfalso; omega)
      | simp_all

lemma frozen_step (cfg : Config) (ui : Option Nat) (s : LoopState) (o : Obs) (k : Nat)
    (hIds : ∀ rid ∈ o.domIds, rid ∈ s.seen_ids)
    (hPlateau : cfg.MIN_PLATEAU_COUNT ≤ s.seen_ids.length)
    (hNoTarget : _target_reached cfg ui s.seen_ids.length = false)
    (hRebind : rebindKeepsContainer s.last_container_guid o)
    (hT3 : o.tEnd - s.start_ts < cfg.PLACE_HARD_TIMEOUT_SEC)
    (hT4 : o.tEnd - s.last_progress_ts < cfg.NO_PROGRESS_MAX_SECS) :
    stepBody cfg ui (frozenIter s o k) o = StepOut.cont (frozenIter s o (k + 1)) := by
  have h := (stepBody_stalled cfg ui (frozenIter s o k) o
      (by simpa [frozenIter] using hIds) (by simpa [frozenIter] using hPlateau)
      (by simp [frozenIter]) (by simp [frozenIter])
      (by simpa [frozenIter] using hNoTarget)
      (by simpa [frozenIter] using hT3) (by simpa [frozenIter] using hT4)).1
      (by simpa [frozenIter, rebindKeepsContainer] using hRebind)
  rw [h]
  simp only [frozenIter]
  norm_num [Nat.add_assoc]

lemma loopCond_ne_outOfObs (cfg : Config) (ui : Option Nat) (s : LoopState) (t : Nat) :
    loopCond cfg ui s t ≠ some ExitReason.outOfObs := by
  simp only [loopCond]
  split_ifs <;> simp

lemma stepBody_ne_outOfObs (cfg : Config) (ui : Option Nat) (s : LoopState) (o : Obs)
    (s' : LoopState) : stepBody cfg ui s o ≠ StepOut.broke s' ExitReason.outOfObs := by
  simp only [stepBody]
  split_ifs <;> simp

lemma runLoop_append_of_outOfObs (cfg : Config) (ui : Option Nat) :
    ∀ (l1 : List Obs) (s s' : LoopState),
      runLoop cfg ui s l1 = (s', ExitReason.outOfObs) →
      ∀ l2, runLoop cfg ui s (l1 ++ l2) = runLoop cfg ui s' l2 := by
  intro l1
  induction l1 with
  | nil =>
      intro s s' h l2
      simp only [runLoop, Prod.mk.injEq] at h
      rw [List.nil_append, h.1]
  | cons o rest ih =>
      intro s s' h l2
      simp only [runLoop] at h
      rw [List.cons_append]
      simp only [runLoop]
      cases hc : loopCond cfg ui s o.tCond with
      | some r =>
          rw [hc] at h
          simp only [Prod.mk.injEq] at h
          exact absurd (h.2 ▸ hc) (loopCond_ne_outOfObs cfg ui s o.tCond)
      | none =>
          rw [hc] at h
          cases hout : stepBody cfg ui s o with
          | broke s'' r =>
              rw [hout] at h
              simp only [Prod.mk.injEq] at h
              exact absurd (h.2 ▸ hout) (stepBody_ne_outOfObs cfg ui s o s'')
          | cont s'' =>
              rw [hout] at h
              exact ih s'' s' h l2

lemma frozen_run (cfg : Config) (ui : Option Nat) (s : LoopState) (o : Obs)
    (hIdle0 : s.idle = 0)
    (hIds : ∀ rid ∈ o.domIds, rid ∈ s.seen_ids)
    (hPlateau : cfg.MIN_PLATEAU_COUNT ≤ s.seen_ids.length)
    (hNoTarget : _target_reached cfg ui s.seen_ids.length = false)
    (hRounds : s.rounds + cfg.SCROLL_IDLE_ROUNDS ≤ cfg.MAX_SCROLL_ROUNDS)
    (hRebind : rebindKeepsContainer s.last_container_guid o)
    (hT1 : o.tCond - s.start_ts < cfg.PLACE_HARD_TIMEOUT_SEC)
    (hT2 : o.tCond - s.last_progress_ts < cfg.NO_PROGRESS_MAX_SECS)
    (hT3 : o.tEnd - s.start_ts < cfg.PLACE_HARD_TIMEOUT_SEC)
    (hT4 : o.tEnd - s.last_progress_ts < cfg.NO_PROGRESS_MAX_SECS) :
    ∀ (k j : Nat), j + k ≤ cfg.SCROLL_IDLE_ROUNDS →
      runLoop cfg ui (frozenIter s o j) (List.replicate k o)
        = (frozenIter s o (j + k), ExitReason.outOfObs) := by
  intro k
  induction k with
  | zero => intro j hj; simp [runLoop]
  | succ n ih =>
      intro j hj
      rw [List.replicate_succ]
      simp only [runLoop,
        frozen_cond cfg ui s o j hIdle0 (by omega) hRounds hNoTarget hT1 hT2,
        frozen_step cfg ui s o j hIds hPlateau hNoTarget hRebind hT3 hT4]
      rw [show j + (n + 1) = (j + 1) + n from by omega]
      exact ih (j + 1) (by omega)

/-- C1.  On a fully stalled feed — every iteration re-shows only already
seen identifiers, the scroll position and extent stay at the previously
measured values, the locator never yields a different usable container —
and with no other termination condition in reach (target not met, round cap
not near, both wall-clock budgets respected, count at or above the plateau
so the warming-up exception is off), the controller runs exactly
`SCROLL_IDLE_ROUNDS` further iterations, each incrementing the idle counter,
and then terminates through the idle threshold with the rows untouched;
with any fewer observations it has not yet terminated. -/
theorem idle_termination (cfg : Config) (ui : Option Nat) (s : LoopState) (o : Obs)
    (hIdle0 : s.idle = 0)
    (hPrev : s.prev_scroll_state = o.scrollAfter)
    (hPrevTotal : s.prev_total = s.seen_ids.length)
    (hIds : ∀ rid ∈ o.domIds, rid ∈ s.seen_ids)
    (hPlateau : cfg.MIN_PLATEAU_COUNT ≤ s.seen_ids.length)
    (hNoTarget : _target_reached cfg ui s.seen_ids.length = false)
    (hRounds : s.rounds + cfg.SCROLL_IDLE_ROUNDS ≤ cfg.MAX_SCROLL_ROUNDS)
    (hRebind : rebindKeepsContainer s.last_container_guid o)
    (hT1 : o.tCond - s.start_ts < cfg.PLACE_HARD_TIMEOUT_SEC)
    (hT2 : o.tCond - s.last_progress_ts < cfg.NO_PROGRESS_MAX_SECS)
    (hT3 : o.tEnd - s.start_ts < cfg.PLACE_HARD_TIMEOUT_SEC)
    (hT4 : o.tEnd - s.last_progress_ts < cfg.NO_PROGRESS_MAX_SECS) :
    (∀ k, k ≤ cfg.SCROLL_IDLE_ROUNDS →
        runLoop cfg ui s (List.replicate k o)
          = (frozenIter s o k, ExitReason.outOfObs))
    ∧ runLoop cfg ui s (List.replicate (cfg.SCROLL_IDLE_ROUNDS + 1) o)
        = (frozenIter s o cfg.SCROLL_IDLE_ROUNDS, ExitReason.idleLimit)
    ∧ (runLoop cfg ui s (List.replicate (cfg.SCROLL_IDLE_ROUNDS + 1) o)).1.rows
        = s.rows := by
  have h0 := frozenIter_zero s o hPrev hPrevTotal
  have hrun := frozen_run cfg ui s o hIdle0 hIds hPlateau hNoTarget hRounds hRebind
    hT1 hT2 hT3 hT4
  have hpart1 : ∀ k, k ≤ cfg.SCROLL_IDLE_ROUNDS →
      runLoop cfg ui s (List.replicate k o)
        = (frozenIter s o k, ExitReason.outOfObs) := by
    intro k hk
    have := hrun k 0 (by omega)
    rwa [h0, Nat.zero_add] at this
  have hfull : runLoop cfg ui s (List.replicate (cfg.SCROLL_IDLE_ROUNDS + 1) o)
      = (frozenIter s o cfg.SCROLL_IDLE_ROUNDS, ExitReason.idleLimit) := by
    rw [List.replicate_succ',
      runLoop_append_of_outOfObs cfg ui (List.replicate cfg.SCROLL_IDLE_ROUNDS o) s
        (frozenIter s o cfg.SCROLL_IDLE_ROUNDS) (hpart1 _ le_rfl) [o]]
    simp only [runLoop, loopCond]
    rw [if_pos (by simp only [frozenIter]; omega)]
  exact ⟨hpart1, hfull, by rw [hfull]; simp [frozenIter]⟩

/-- Concrete state for the idle-termination and rebinding witnesses: 20 ids
already seen (at the plateau), frozen scroll measurements recorded. -/
def cState1 : LoopState :=
  { rows := [], seen_ids := List.replicate 20 "x", idle := 0, prev_total := 20,
    rounds := 0, prev_scroll_state := (5, 300), no_new_rounds := 0,
    rebounce_done := false, last_container_guid := some 1, start_ts := 0,
    last_progress_ts := 0, rebounceAttempts := 0, rebounceSuccesses := 0,
    sortApplications := 0 }

/-- Concrete frozen observation for the idle-termination witness. -/
def cObs1 : Obs :=
  { tCond := 1, domIds := [], rebounceClick := false, rebounceCand := none,
    rebounceClick2 := false, rebounceCand2 := none, extractOk := fun _ => true,
    tProgress := 1, scrollBefore := (5, 300), scrollAfter := (5, 300),
    rebindCand := none, tEnd := 1 }

/-- Witness for `idle_termination` with the default idle threshold 3: three
frozen iterations do not terminate, the fourth check exits via the idle
threshold. -/
theorem idle_termination_witness :
    runLoop defaultConfig (some 100) cState1 (List.replicate 3 cObs1)
      = (frozenIter cState1 cObs1 3, ExitReason.outOfObs)
    ∧ runLoop defaultConfig (some 100) cState1 (List.replicate 4 cObs1)
      = (frozenIter cState1 cObs1 3, ExitReason.idleLimit) := by
  have h := idle_termination defaultConfig (some 100) cState1 cObs1 (by decide)
    (by decide) (by decide) (by decide) (by decide) (by decide) (by decide)
    (Or.inl rfl) (by decide) (by decide) (by decide) (by decide)
  exact ⟨h.1 3 (by decide), h.2.1⟩

/-! ## Claim C7: rebinding -/

/-- C7.  In a stalled iteration (scroll position and extent unchanged, no
new identifiers, hence no new records), if the re-invoked locator returns a
scrollable container whose identity marker `g` is truthy and differs from
the active one, the controller — in that same iteration — adopts the new
container, re-applies the newest-first sort preference (one more
`_set_sort_newest` call), and resets the idle counter to 0 (also clearing
the remembered scroll state). -/
theorem rebinding_resets_idle (cfg : Config) (ui : Option Nat) (s : LoopState) (o : Obs)
    (g : Nat)
    (hIds : ∀ rid ∈ o.domIds, rid ∈ s.seen_ids)
    (hPlateau : cfg.MIN_PLATEAU_COUNT ≤ s.seen_ids.length)
    (hPrev : s.prev_scroll_state = o.scrollAfter)
    (hPrevTotal : s.prev_total = s.seen_ids.length)
    (hNoTarget : _target_reached cfg ui s.seen_ids.length = false)
    (hGuid : It.rebindGuid o = some g)
    (hNe : some g ≠ s.last_container_guid)
    (hT3 : o.tEnd - s.start_ts < cfg.PLACE_HARD_TIMEOUT_SEC)
    (hT4 : o.tEnd - s.last_progress_ts < cfg.NO_PROGRESS_MAX_SECS) :
    stepBody cfg ui s o = StepOut.cont
      { s with
        idle := 0, prev_total := s.seen_ids.length,
        rounds := s.rounds + 1, no_new_rounds := s.no_new_rounds + 1,
        prev_scroll_state := ((-1 : Int), (-1 : Int)),
        last_container_guid := some g,
        sortApplications := s.sortApplications + 1 } :=
  (stepBody_stalled cfg ui s o hIds hPlateau hPrev hPrevTotal hNoTarget hT3 hT4).2
    g hGuid hNe

/-- Concrete stalled observation whose rebind locator returns a scrollable
container with the fresh marker 2 (the active one is 1). -/
def cObs7 : Obs :=
  { tCond := 1, domIds := [], rebounceClick := false, rebounceCand := none,
    rebounceClick2 := false, rebounceCand2 := none, extractOk := fun _ => true,
    tProgress := 1, scrollBefore := (5, 300), scrollAfter := (5, 300),
    rebindCand := some { scrollable := true, guid := some 2 }, tEnd := 1 }

/-- Witness for `rebinding_resets_idle` at the concrete stalled state. -/
theorem rebinding_resets_idle_witness :
    stepBody defaultConfig (some 100) cState1 cObs7 = StepOut.cont
      { cState1 with
        idle := 0, prev_total := cState1.seen_ids.length,
        rounds := cState1.rounds + 1, no_new_rounds := cState1.no_new_rounds + 1,
        prev_scroll_state := ((-1 : Int), (-1 : Int)),
        last_container_guid := some 2,
        sortApplications := cState1.sortApplications + 1 } :=
  rebinding_resets_idle defaultConfig (some 100) cState1 cObs7 2 (by decide)
    (by decide) (by decide) (by decide) (by decide) rfl (by decide)
    (by decide) (by decide)

/-! ## Claim C9: category round-trip -/

lemma hexVal_hexDigitChar (d : Nat) (h : d < 16) :
    hexVal (hexDigitChar d) = some d := by
  interval_cases d <;> decide

lemma parseStringBody_quote (rest : List Char) :
    parseStringBody ('"' :: rest) = some ([], rest) := by
  rw [parseStringBody.eq_def]
  simp

lemma parseStringBody_simple (e ch : Char) (rest out r : List Char)
    (hs : simpleEscape e = some ch) (hu : e ≠ 'u')
    (hrec : parseStringBody rest = some (out, r)) :
    parseStringBody ('\\' :: e :: rest) = some (ch :: out, r) := by
  rw [parseStringBody.eq_def]
  simp [hu, hs, hrec]

lemma parseStringBody_unicode (c : Char) (rest out r : List Char) (h8 : c.toNat < 32)
    (hrec : parseStringBody rest = some (out, r)) :
    parseStringBody ('\\' :: 'u' :: '0' :: '0' :: hexDigitChar (c.toNat / 16)
        :: hexDigitChar (c.toNat % 16) :: rest) = some (c :: out, r) := by
  rw [parseStringBody.eq_def]
  have hv0 : hexVal '0' = some 0 := by decide
  have hv1 := hexVal_hexDigitChar (c.toNat / 16) (by omega)
  have hv2 := hexVal_hexDigitChar (c.toNat % 16) (by omega)
  have hn : c.toNat / 16 * 16 + c.toNat % 16 = c.toNat := by omega
  have hvalid : (c.toNat).isValidChar := Or.inl (by omega)
  simp [hv0, hv1, hv2, hn, hvalid, Char.ofNat_toNat, hrec]

lemma parseStringBody_plain (c : Char) (rest out r : List Char) (h1 : c ≠ '"')
    (h2 : c ≠ '\\') (h8 : ¬ c.toNat < 32)
    (hrec : parseStringBody rest = some (out, r)) :
    parseStringBody (c :: rest) = some (c :: out, r) := by
  rw [parseStringBody.eq_def]
  simp [h1, h2, h8, hrec]

lemma parseStringBody_escape : ∀ (cs rest : List Char),
    parseStringBody ((cs.map escapeChar).flatten ++ '"' :: rest) = some (cs, rest) := by
  intro cs
  induction cs with
  | nil => intro rest; simpa using parseStringBody_quote rest
  | cons c cs ih =>
      intro rest
      simp only [List.map_cons, List.flatten_cons, List.append_assoc]
      by_cases h1 : c = '"'
      · subst h1
        simpa [escapeChar] using
          parseStringBody_simple '"' '"' _ cs rest (by decide) (by decide) (ih rest)
      by_cases h2 : c = '\\'
      · subst h2
        simpa [escapeChar] using
          parseStringBody_simple '\\' '\\' _ cs rest (by decide) (by decide) (ih rest)
      by_cases h3 : c = '\n'
      · subst h3
        simpa [escapeChar] using
          parseStringBody_simple 'n' '\n' _ cs rest (by decide) (by decide) (ih rest)
      by_cases h4 : c = '\r'
      · subst h4
        simpa [escapeChar] using
          parseStringBody_simple 'r' '\r' _ cs rest (by decide) (by decide) (ih rest)
      by_cases h5 : c = '\t'
      · subst h5
        simpa [escapeChar] using
          parseStringBody_simple 't' '\t' _ cs rest (by decide) (by decide) (ih rest)
      by_cases h6 : c.toNat = 8
      · have hc : c = Char.ofNat 8 := by
          conv_lhs => rw [← Char.ofNat_toNat c]
          rw [h6]
        have he : escapeChar c = ['\\', 'b'] := by
          simp [escapeChar, h1, h2, h3, h4, h5, h6]
        rw [he, hc]
        exact parseStringBody_simple 'b' (Char.ofNat 8) _ cs rest (by decide) (by decide)
          (ih rest)
      by_cases h7 : c.toNat = 12
      · have hc : c = Char.ofNat 12 := by
          conv_lhs => rw [← Char.ofNat_toNat c]
          rw [h7]
        have he : escapeChar c = ['\\', 'f'] := by
          simp [escapeChar, h1, h2, h3, h4, h5, h6, h7]
        rw [he, hc]
        exact parseStringBody_simple 'f' (Char.ofNat 12) _ cs rest (by decide) (by decide)
          (ih rest)
      by_cases h8 : c.toNat < 32
      · have he : escapeChar c
            = ['\\', 'u', '0', '0', hexDigitChar (c.toNat / 16),
               hexDigitChar (c.toNat % 16)] := by
          simp [escapeChar, h1, h2, h3, h4, h5, h6, h7, h8]
        rw [he]
        simpa using parseStringBody_unicode c _ cs rest h8 (ih rest)
      · have he : escapeChar c = [c] := by
          simp [escapeChar, h1, h2, h3, h4, h5, h6, h7, h8]
        rw [he]
        simpa using parseStringBody_plain c _ cs rest h1 h2 h8 (ih rest)

lemma skipWs_cons_of_not (c : Char) (l : List Char) (h : jsonWs c = false) :
    skipWs (c :: l) = c :: l := by
  simp [skipWs, List.dropWhile_cons, h]

lemma parseItems_space (fuel : Nat) (l : List Char) :
    parseItems fuel (' ' :: l) = parseItems fuel l := by
  have h : skipWs (' ' :: l) = skipWs l := by
    simp [skipWs, List.dropWhile_cons, jsonWs]
  cases fuel with
  | zero => rfl
  | succ f =>
      rw [parseItems.eq_def]
      conv_rhs => rw [parseItems.eq_def]
      simp only [h]

lemma parseItems_step (f : Nat) (x : String) (after : List Char) :
    parseItems (f + 1) (encodeJsonString x ++ after)
      = match skipWs after with
        | ',' :: rest3 =>
          (match parseItems f rest3 with
           | some (items, r) => some (x.data :: items, r)
           | none => none)
        | ']' :: rest3 => some ([x.data], rest3)
        | _ => none := by
  have hshape : encodeJsonString x ++ after
      = '"' :: ((x.data.map escapeChar).flatten ++ '"' :: after) := by
    simp [encodeJsonString]
  rw [hshape, parseItems.eq_def]
  simp [skipWs_cons_of_not '"' _ (by decide), parseStringBody_escape]

lemma parseItems_dumps : ∀ (xs : List String) (x : String) (f : Nat) (tail : List Char),
    xs.length ≤ f →
    parseItems (f + 1) (sepJoin ((x :: xs).map encodeJsonString) ++ ']' :: tail)
      = some ((x :: xs).map String.data, tail) := by
  intro xs
  induction xs with
  | nil =>
      intro x f tail _
      rw [show sepJoin ((x :: ([] : List String)).map encodeJsonString)
          = encodeJsonString x from rfl]
      rw [parseItems_step]
      simp only [skipWs_cons_of_not ']' _ (by decide)]
      simp
  | cons y ys ih =>
      intro x f tail hf
      rw [show sepJoin ((x :: y :: ys).map encodeJsonString) ++ ']' :: tail
          = encodeJsonString x
            ++ (',' :: ' ' :: (sepJoin ((y :: ys).map encodeJsonString) ++ ']' :: tail))
          from by simp [sepJoin]]
      rw [parseItems_step]
      simp only [skipWs_cons_of_not ',' _ (by decide), parseItems_space]
      cases f with
      | zero => simp at hf
      | succ f' =>
          rw [ih y f' tail (by simp only [List.length_cons] at hf; omega)]
          simp

lemma sepJoin_encode_head (x : String) (xs : List String) :
    ∃ T : List Char, sepJoin ((x :: xs).map encodeJsonString) = '"' :: T := by
  cases xs with
  | nil => exact ⟨_, rfl⟩
  | cons y ys => exact ⟨_, rfl⟩

lemma sepJoin_encode_length (l : List String) :
    l.length ≤ (sepJoin (l.map encodeJsonString)).length := by
  induction l with
  | nil => simp [sepJoin]
  | cons x xs ih =>
      cases xs with
      | nil => simp [sepJoin, encodeJsonString]
      | cons y ys =>
          rw [show sepJoin ((x :: y :: ys).map encodeJsonString)
              = encodeJsonString x
                ++ ',' :: ' ' :: sepJoin ((y :: ys).map encodeJsonString) from rfl]
          simp only [List.length_append, List.length_cons, List.length_map] at ih ⊢
          simp only [encodeJsonString, List.length_cons, List.length_append]
          omega

lemma parseJsonStringArray_dumps (l : List String) (hne : l ≠ []) :
    parseJsonStringArray (jsonDumpsStrings l) = some l := by
  obtain ⟨x, xs, rfl⟩ := List.exists_cons_of_ne_nil hne
  obtain ⟨T, hT⟩ := sepJoin_encode_head x xs
  have hdata : (jsonDumpsStrings (x :: xs)).data
      = '[' :: (sepJoin ((x :: xs).map encodeJsonString) ++ [']']) := rfl
  have hlen := sepJoin_encode_length (x :: xs)
  simp only [parseJsonStringArray, hdata, skipWs_cons_of_not '[' _ (by decide)]
  rw [hT, List.cons_append]
  simp only [skipWs_cons_of_not '"' _ (by decide)]
  rw [← List.cons_append, ← hT]
  have hfuel : (sepJoin ((x :: xs).map encodeJsonString) ++ [']']).length + 1
      = ((sepJoin ((x :: xs).map encodeJsonString)).length + 1) + 1 := by simp
  have hxs : xs.length ≤ (sepJoin ((x :: xs).map encodeJsonString)).length + 1 := by
    simp only [List.length_cons] at hlen
    omega
  rw [hfuel,
    show sepJoin ((x :: xs).map encodeJsonString) ++ [']']
      = sepJoin ((x :: xs).map encodeJsonString) ++ ']' :: [] from rfl,
    parseItems_dumps xs x _ [] hxs]
  have hmk : ∀ y : String, String.mk y.data = y := fun y => rfl
  have hT2 : sepJoin (encodeJsonString x :: List.map encodeJsonString xs) = '"' :: T := by
    simpa using hT
  simp [skipWs, List.map_map, hmk, hT2]
  have hid : ∀ y ∈ xs, (String.mk ∘ String.data) y = id y := fun y _ => rfl
  rw [List.map_congr_left hid, List.map_id]

lemma pyStripList_of_ends (a b : Char) (ha : isPyWs a = false) (hb : isPyWs b = false)
    (mid : List Char) : pyStripList (a :: (mid ++ [b])) = a :: (mid ++ [b]) := by
  simp only [pyStripList, List.dropWhile_cons, ha, Bool.false_eq_true, if_false]
  rw [show (a :: (mid ++ [b])).reverse = b :: (mid.reverse ++ [a]) from by simp]
  simp only [List.dropWhile_cons, hb, Bool.false_eq_true, if_false]
  simp

lemma pyStrip_dumps (l : List String) :
    pyStrip (jsonDumpsStrings l) = jsonDumpsStrings l := by
  have hdata : (jsonDumpsStrings l).data
      = '[' :: (sepJoin (l.map encodeJsonString) ++ [']']) := rfl
  simp only [pyStrip, hdata]
  rw [pyStripList_of_ends '[' ']' (by decide) (by decide), ← hdata]

lemma jsonDumpsStrings_ne_empty (l : List String) : jsonDumpsStrings l ≠ "" := by
  intro h
  have := congrArg String.data h
  simp [jsonDumpsStrings] at this

/-- C9.  Serializing a non-empty list of non-empty, whitespace-trimmed
category labels with `json.dumps` (as `process_one` does when writing the
Categories column) and re-parsing the text with the loader's
`_parse_categories` reproduces the original list, in order. -/
theorem category_roundtrip (l : List String) (hne : l ≠ [])
    (hx : ∀ x ∈ l, x ≠ "" ∧ pyStrip x = x) :
    _parse_categories (some (jsonDumpsStrings l)) = some l := by
  simp only [_parse_categories]
  rw [if_neg (jsonDumpsStrings_ne_empty l)]
  rw [pyStrip_dumps l, parseJsonStringArray_dumps l hne]
  have hmap : l.map pyStrip = l := by
    have h1 := List.map_congr_left (fun x hx' => (hx x hx').2)
    rw [h1]
    simp
  have hfilter : l.filter (fun x => x ≠ "") = l :=
    List.filter_eq_self.mpr (fun x hx' => by simp [(hx x hx').1])
  simp only [hmap, hfilter]
  rw [if_neg (by simpa [List.isEmpty_iff] using hne)]

/-- Witness for `category_roundtrip` at the concrete list
["Cafe", "Coffee shop"]. -/
theorem category_roundtrip_witness :
    _parse_categories (some (jsonDumpsStrings ["Cafe", "Coffee shop"]))
      = some ["Cafe", "Coffee shop"] :=
  category_roundtrip ["Cafe", "Coffee shop"] (by decide) (by decide)

end GMR
